import Mathlib

/-!
A verification development for the jflow 2-D finite-volume Euler solver.

The definitions below are a shallow embedding of the solver core:

* `std::size_t` arithmetic is modelled as `Nat` with explicit `% 2^64`
  where the source relies on wrap-around;
* `double` arithmetic is modelled as `ℝ`;
* `check_precondition` (which throws in debug builds) is modelled with
  `Except String`, the error carrying the source's message.

Each section names the source file and function it embeds.
-/

namespace jflow

/-- Modulus of `std::size_t` arithmetic: `2^64`, written as a numeral. -/
def wordSize : Nat := 18446744073709551616

/-- common.hpp: `check_precondition(check, what)` — throws `precondition_error(what)`
when the check fails, modelled as `Except.error what`. -/
def check_precondition (b : Prop) [Decidable b] (msg : String) : Except String Unit :=
  if b then Except.ok () else Except.error msg

theorem check_precondition_true {b : Prop} [Decidable b] (msg : String) (h : b) :
    check_precondition b msg = Except.ok () := by
  simp [check_precondition, h]

theorem check_precondition_ok_iff {b : Prop} [Decidable b] {msg : String} {u : Unit} :
    check_precondition b msg = Except.ok u ↔ b := by
  unfold check_precondition
  split <;> simp_all

@[simp] theorem except_ok_bind {ε α β : Type} (a : α) (f : α → Except ε β) :
    (Except.ok a : Except ε α) >>= f = f a := rfl

@[simp] theorem except_error_bind {ε α β : Type} (e : ε) (f : α → Except ε β) :
    (Except.error e : Except ε α) >>= f = Except.error e := rfl

@[simp] theorem except_map_ok {ε α β : Type} (g : α → β) (a : α) :
    (g <$> (Except.ok a : Except ε α)) = Except.ok (g a) := rfl

@[simp] theorem except_map_error {ε α β : Type} (g : α → β) (e : ε) :
    (g <$> (Except.error e : Except ε α)) = Except.error e := rfl

theorem except_bind_ok_elim {ε α β : Type} {x : Except ε α} {f : α → Except ε β} {v : β}
    (h : x >>= f = Except.ok v) : ∃ a, x = Except.ok a ∧ f a = Except.ok v := by
  cases x with
  | ok a => exact ⟨a, rfl, h⟩
  | error e => simp at h

/-- structured_grid.hpp: `structured_grid::compute_id(coords, size)` —
row-major linear index `i·size[1] + j`, with debug range checks. -/
def compute_id (coords size : Nat × Nat) : Except String Nat := do
  let _ ← check_precondition (coords.1 < size.1) "i-index is out of range."
  let _ ← check_precondition (coords.2 < size.2) "j-index is out of range."
  pure (coords.1 * size.2 + coords.2)

/-- structured_grid.hpp: `structured_grid::compute_coordinates(id, size)` —
`i = id / size[1]`, `j = id − i·size[1]`, with a debug range check. -/
def compute_coordinates (id : Nat) (size : Nat × Nat) : Except String (Nat × Nat) := do
  let _ ← check_precondition (id < size.1 * size.2) "id is out of range."
  let i := id / size.2
  let j := id - i * size.2
  pure (i, j)

theorem compute_id_ok_iff {coords size : Nat × Nat} {v : Nat} :
    compute_id coords size = Except.ok v ↔
      coords.1 < size.1 ∧ coords.2 < size.2 ∧ v = coords.1 * size.2 + coords.2 := by
  unfold compute_id check_precondition
  split <;> split <;> simp_all [pure, Except.pure, eq_comm]

theorem compute_id_of_lt {coords size : Nat × Nat}
    (h1 : coords.1 < size.1) (h2 : coords.2 < size.2) :
    compute_id coords size = Except.ok (coords.1 * size.2 + coords.2) :=
  compute_id_ok_iff.mpr ⟨h1, h2, rfl⟩

theorem compute_coordinates_ok_iff {id : Nat} {size : Nat × Nat} {v : Nat × Nat} :
    compute_coordinates id size = Except.ok v ↔
      id < size.1 * size.2 ∧ v = (id / size.2, id - id / size.2 * size.2) := by
  unfold compute_coordinates check_precondition
  split <;> simp_all [pure, Except.pure, eq_comm]

theorem row_major_div_sub (q r b : Nat) (hb : 0 < b) (hr : r < b) :
    (q * b + r) / b = q ∧ (q * b + r) - (q * b + r) / b * b = r := by
  have hdiv : (q * b + r) / b = q := by
    rw [Nat.mul_comm q b, Nat.mul_add_div hb, Nat.div_eq_of_lt hr, Nat.add_zero]
  exact ⟨hdiv, by rw [hdiv]; omega⟩

/-- Claim C10: for every logical size `s` with `s[0] ≥ 1` and `s[1] ≥ 1`,
`compute_id` and `compute_coordinates` are mutually inverse:
`compute_coordinates (compute_id (i, j) s) s = (i, j)` for `i < s[0]`, `j < s[1]`,
and `compute_id (compute_coordinates id s) s = id` for `id < s[0]·s[1]`. -/
theorem compute_id_coordinates_inverse (s : Nat × Nat) (h1 : 1 ≤ s.1) (h2 : 1 ≤ s.2) :
    (∀ i j, i < s.1 → j < s.2 →
      (compute_id (i, j) s).bind (fun id => compute_coordinates id s) = Except.ok (i, j)) ∧
    (∀ id, id < s.1 * s.2 →
      (compute_coordinates id s).bind (fun c => compute_id c s) = Except.ok id) := by
  have hs2 : 0 < s.2 := h2
  constructor
  · intro i j hi hj
    rw [compute_id_of_lt hi hj]
    show compute_coordinates (i * s.2 + j) s = Except.ok (i, j)
    rw [compute_coordinates_ok_iff]
    obtain ⟨hdiv, hsub⟩ := row_major_div_sub i j s.2 hs2 hj
    refine ⟨?_, by rw [hdiv, Prod.mk.injEq]; exact ⟨rfl, by omega⟩⟩
    calc i * s.2 + j < i * s.2 + s.2 := by omega
      _ = (i + 1) * s.2 := by ring
      _ ≤ s.1 * s.2 := Nat.mul_le_mul_right _ (by omega)
  · intro n hn
    obtain ⟨q, r, hr, hqr⟩ : ∃ q r, r < s.2 ∧ n = q * s.2 + r :=
      ⟨n / s.2, n % s.2, Nat.mod_lt n hs2, by
        have := Nat.div_add_mod n s.2
        rw [Nat.mul_comm] at this
        omega⟩
    subst hqr
    obtain ⟨hdiv, hsub⟩ := row_major_div_sub q r s.2 hs2 hr
    have hok : compute_coordinates (q * s.2 + r) s = Except.ok (q, r) := by
      rw [compute_coordinates_ok_iff]
      exact ⟨hn, by rw [hdiv, Prod.mk.injEq]; exact ⟨rfl, by omega⟩⟩
    rw [hok]
    show compute_id (q, r) s = Except.ok (q * s.2 + r)
    have hq : q < s.1 := by
      have hlt : q * s.2 < s.1 * s.2 := by omega
      exact lt_of_mul_lt_mul_right hlt (Nat.zero_le s.2)
    exact compute_id_of_lt hq hr

/-- Witness for C10 at the concrete size `(3, 4)`. -/
theorem compute_id_coordinates_inverse_witness :
    1 ≤ 3 ∧ 1 ≤ 4 ∧
    ((∀ i j, i < 3 → j < 4 →
      (compute_id (i, j) (3, 4)).bind (fun id => compute_coordinates id (3, 4)) =
        Except.ok (i, j)) ∧
    (∀ id, id < 3 * 4 →
      (compute_coordinates id (3, 4)).bind (fun c => compute_id c (3, 4)) =
        Except.ok id)) :=
  ⟨by decide, by decide, compute_id_coordinates_inverse (3, 4) (by decide) (by decide)⟩

/-! ## Euler physics (euler.cpp / euler.hpp)

The perfect-gas parameters `(γ, R)` are process-wide mutable statics in the
source; here they are passed explicitly.  States and fluxes are 4-vectors
`(ρ, ρu, ρv, ρE)` modelled as `ℝ × ℝ × ℝ × ℝ` with componentwise arithmetic. -/

noncomputable section

/-- euler.hpp: process-wide perfect-gas parameters, `specific_heat_ratio_`
(γ, default 1.400) and `specific_gas_constant_` (R, default 287.058). -/
structure gas_props where
  g : ℝ
  R : ℝ

namespace perfect_gas

/-- euler.hpp: `perfect_gas::compute_energy(T) = R·T/(γ−1)`. -/
def compute_energy (gp : gas_props) (T : ℝ) : ℝ := gp.R * T / (gp.g - 1)

/-- euler.hpp: `perfect_gas::compute_density(p, T) = p/(R·T)`. -/
def compute_density (gp : gas_props) (p T : ℝ) : ℝ := p / (gp.R * T)

/-- euler.hpp: `perfect_gas::compute_pressure(e, rho) = (γ−1)·ρ·e`. -/
def compute_pressure (gp : gas_props) (e rho : ℝ) : ℝ := (gp.g - 1) * rho * e

/-- euler.hpp: `perfect_gas::compute_sound_speed(e, rho) = √(γ(γ−1)e)`. -/
def compute_sound_speed (gp : gas_props) (e rho : ℝ) : ℝ :=
  Real.sqrt (gp.g * (gp.g - 1) * e)

theorem compute_sound_speed_of_zero (gp : gas_props) (rho : ℝ) :
    compute_sound_speed gp 0 rho = 0 := by
  simp [compute_sound_speed]

end perfect_gas

namespace euler

/-- euler.hpp: `euler::state = vector4`, the conservative state `(ρ, ρu, ρv, ρE)`. -/
abbrev state : Type := ℝ × ℝ × ℝ × ℝ

/-- euler.hpp: `euler::flux = vector4`. -/
abbrev flux : Type := ℝ × ℝ × ℝ × ℝ

/-- euler.cpp: the file-local helper `spectral_radius(q, n)`.  The last line
reproduces the source verbatim: `c + std::abs(u * n[0] + u * n[1])` (both
occurrences are `u` in the source; `v` is computed but not used there). -/
def spectral_radius (gp : gas_props) (q : state) (n : ℝ × ℝ) : ℝ :=
  let rho := q.1
  let rhou := q.2.1
  let rhov := q.2.2.1
  let rhoE := q.2.2.2
  let u := rhou / rho
  let v := rhov / rho
  let e := rhoE / rho - 0.5 * (u * u + v * v)
  let c := perfect_gas.compute_sound_speed gp e rho
  c + |u * n.1 + u * n.2|

/-- euler.cpp: `euler::compute_flux(q, n)` — the physical inviscid flux
`(un·ρ, un·ρu + p·n₀, un·ρv + p·n₁, un·(ρE + p))` with `un = u·n₀ + v·n₁`. -/
def compute_flux (gp : gas_props) (q : state) (n : ℝ × ℝ) : flux :=
  let rho := q.1
  let rhou := q.2.1
  let rhov := q.2.2.1
  let rhoE := q.2.2.2
  let u := rhou / rho
  let v := rhov / rho
  let e := rhoE / rho - 0.5 * (u * u + v * v)
  let p := perfect_gas.compute_pressure gp e rho
  let un := u * n.1 + v * n.2
  (un * rho, un * rhou + p * n.1, un * rhov + p * n.2, un * (rhoE + p))

/-- euler.cpp: `euler::compute_freestream_flux(q, n)` — ignores `q` and
returns `compute_flux(freestream_, n)`; the process-wide `freestream_` state
is passed explicitly here. -/
def compute_freestream_flux (gp : gas_props) (freestream q : state) (n : ℝ × ℝ) : flux :=
  compute_flux gp freestream n

/-- euler.cpp: `euler::compute_wall_flux(q, n)` — `(0, p·n₀, p·n₁, 0)`. -/
def compute_wall_flux (gp : gas_props) (q : state) (n : ℝ × ℝ) : flux :=
  let rho := q.1
  let rhou := q.2.1
  let rhov := q.2.2.1
  let rhoE := q.2.2.2
  let u := rhou / rho
  let v := rhov / rho
  let e := rhoE / rho - 0.5 * (u * u + v * v)
  let p := perfect_gas.compute_pressure gp e rho
  (0, p * n.1, p * n.2, 0)

/-- euler.cpp: `euler::compute_jump_flux(ql, qr, n)` —
`0.5 * (fl + fr - lam * (ql - qr))` with
`lam = max(spectral_radius(ql, n), spectral_radius(qr, n))`. -/
def compute_jump_flux (gp : gas_props) (ql qr : state) (n : ℝ × ℝ) : flux :=
  let lam := max (spectral_radius gp ql n) (spectral_radius gp qr n)
  let fl := compute_flux gp ql n
  let fr := compute_flux gp qr n
  (0.5 : ℝ) • (fl + fr - lam • (ql - qr))

/-- Claim C9: `compute_jump_flux(q, q, n) = compute_flux(q, n)` componentwise
(the statement holds for every `q`, in particular every `q` with strictly
positive density). -/
theorem compute_jump_flux_self (gp : gas_props) (q : state) (n : ℝ × ℝ) :
    compute_jump_flux gp q q n = compute_flux gp q n := by
  simp only [compute_jump_flux, sub_self, smul_zero, sub_zero]
  rw [← two_smul ℝ (compute_flux gp q n), smul_smul]
  norm_num

/-- Claim C2 (code bug): at `q = (1, 0, 1, 1/2)` (so `u = 0`, `v = 1`,
`e = 0`, hence `c = 0`) and `n = (0, 1)` with the default γ = 1.4, the
source's `spectral_radius` returns `c + |u·n₀ + u·n₁| = 0`, while the
specified value `c + |u·n₀ + v·n₁|` is `1`. -/
theorem spectral_radius_drops_v :
    spectral_radius ⟨1.4, 287.058⟩ ((1 : ℝ), (0 : ℝ), (1 : ℝ), (1 / 2 : ℝ)) ((0 : ℝ), (1 : ℝ)) = 0 ∧
    Real.sqrt (1.4 * (1.4 - 1) * 0) + |(0 : ℝ) * 0 + 1 * 1| = 1 := by
  constructor
  · unfold spectral_radius
    norm_num [perfect_gas.compute_sound_speed]
  · norm_num

/-- Claim C1 (code bug): with γ = 1.4, `q_L = (1, 1, 0, 1/2)`,
`q_R = (1, 2, 0, 2)` (both with `e = 0`, so `λ = max(1, 2) = 2`) and
`n = (1, 0)`, the source's `compute_jump_flux` returns
`(3/2, 7/2, 0, 15/4)` — the value of `½(F_L + F_R − λ(q_L − q_R))` — whereas
the specified Rusanov value `½(F_L + F_R − λ(q_R − q_L))` is
`(3/2, 3/2, 0, 3/4)`. -/
theorem compute_jump_flux_sign :
    compute_jump_flux ⟨1.4, 287.058⟩ ((1 : ℝ), (1 : ℝ), (0 : ℝ), (1 / 2 : ℝ))
        ((1 : ℝ), (2 : ℝ), (0 : ℝ), (2 : ℝ)) ((1 : ℝ), (0 : ℝ)) =
      ((3 / 2 : ℝ), (7 / 2 : ℝ), (0 : ℝ), (15 / 4 : ℝ)) ∧
    ((0.5 : ℝ) • (compute_flux ⟨1.4, 287.058⟩ ((1 : ℝ), (1 : ℝ), (0 : ℝ), (1 / 2 : ℝ)) ((1 : ℝ), (0 : ℝ)) +
        compute_flux ⟨1.4, 287.058⟩ ((1 : ℝ), (2 : ℝ), (0 : ℝ), (2 : ℝ)) ((1 : ℝ), (0 : ℝ)) -
        (max (spectral_radius ⟨1.4, 287.058⟩ ((1 : ℝ), (1 : ℝ), (0 : ℝ), (1 / 2 : ℝ)) ((1 : ℝ), (0 : ℝ)))
             (spectral_radius ⟨1.4, 287.058⟩ ((1 : ℝ), (2 : ℝ), (0 : ℝ), (2 : ℝ)) ((1 : ℝ), (0 : ℝ)))) •
          (((1 : ℝ), (2 : ℝ), (0 : ℝ), (2 : ℝ)) - ((1 : ℝ), (1 : ℝ), (0 : ℝ), (1 / 2 : ℝ)) : state))) =
      ((3 / 2 : ℝ), (3 / 2 : ℝ), (0 : ℝ), (3 / 4 : ℝ)) := by
  have hl : spectral_radius ⟨1.4, 287.058⟩ ((1 : ℝ), (1 : ℝ), (0 : ℝ), (1 / 2 : ℝ)) ((1 : ℝ), (0 : ℝ)) = 1 := by
    unfold spectral_radius
    norm_num [perfect_gas.compute_sound_speed]
  have hr : spectral_radius ⟨1.4, 287.058⟩ ((1 : ℝ), (2 : ℝ), (0 : ℝ), (2 : ℝ)) ((1 : ℝ), (0 : ℝ)) = 2 := by
    unfold spectral_radius
    norm_num [perfect_gas.compute_sound_speed]
  have hfl : compute_flux ⟨1.4, 287.058⟩ ((1 : ℝ), (1 : ℝ), (0 : ℝ), (1 / 2 : ℝ)) ((1 : ℝ), (0 : ℝ)) =
      ((1 : ℝ), (1 : ℝ), (0 : ℝ), (1 / 2 : ℝ)) := by
    unfold compute_flux
    norm_num [perfect_gas.compute_pressure, Prod.ext_iff]
  have hfr : compute_flux ⟨1.4, 287.058⟩ ((1 : ℝ), (2 : ℝ), (0 : ℝ), (2 : ℝ)) ((1 : ℝ), (0 : ℝ)) =
      ((2 : ℝ), (4 : ℝ), (0 : ℝ), (4 : ℝ)) := by
    unfold compute_flux
    norm_num [perfect_gas.compute_pressure, Prod.ext_iff]
  constructor
  · unfold compute_jump_flux
    rw [hl, hr, hfl, hfr]
    norm_num [Prod.ext_iff]
  · rw [hl, hr, hfl, hfr]
    norm_num [Prod.ext_iff]

end euler

end

/-! ## Ranges (structured_grid.hpp, `structured_grid::range2d`)

A `range2d` iterates a rectangular slice `[i_lo, i_hi) × [j_lo, j_hi)` of a
logical grid of size `size`, visiting ids in row-major order with a jump over
the gap outside the slice.  The constructor caches
`start = id(i_lo, j_lo)`, `end = id(i_hi − 1, j_lo) + size[1]`,
`interval = j_hi − j_lo` and `offset = size[1] − interval`; the body then
checks the four range preconditions.  `i_hi − 1` is `std::size_t`
subtraction, hence the explicit `% 2^64`. -/

/-- The cached fields of `structured_grid::range2d` (`start_`, `end_`,
`interval_`, `offset_`). -/
structure range2d where
  start : Nat
  last : Nat
  interval : Nat
  offset : Nat
deriving DecidableEq, Repr

/-- structured_grid.hpp: the `range2d` constructor.  Member initializers run
first (the two `compute_id` calls, which carry their own debug checks), then
the four precondition checks in the constructor body. -/
def range2d.make (irange jrange size : Nat × Nat) : Except String range2d := do
  let s ← compute_id (irange.1, jrange.1) size
  let e ← compute_id ((irange.2 + (wordSize - 1)) % wordSize, jrange.1) size
  let _ ← check_precondition (irange.1 < irange.2) "irange must be strictly sorted"
  let _ ← check_precondition (irange.2 ≤ size.1) "irange exceeds grid size"
  let _ ← check_precondition (jrange.1 < jrange.2) "jrange must be strictly sorted"
  let _ ← check_precondition (jrange.2 ≤ size.2) "jrange exceeds grid size"
  pure ⟨s, e + size.2, jrange.2 - jrange.1, size.2 - (jrange.2 - jrange.1)⟩

/-- structured_grid.hpp: the ids visited by iterating from `cur` (with
`count_until_jump = cnt`) until the current id equals `end_`, following
`range2d::iterator::operator++`.  The `fuel` argument bounds the number of
loop iterations; every use supplies enough fuel for the loop to reach
`end_` exactly (the C++ loop has no fuel and would not terminate otherwise). -/
def range2d.visit (r : range2d) : Nat → Nat → Nat → List Nat
  | 0, _, _ => []
  | fuel + 1, cur, cnt =>
    if cur = r.last then []
    else
      cur ::
        (if cnt - 1 = 0 then r.visit fuel (cur + 1 + r.offset) r.interval
         else r.visit fuel (cur + 1) (cnt - 1))

/-- The full iteration of a range: from `begin() = (start_, interval_)` to
`end()`. -/
def range2d.elems (r : range2d) : List Nat := r.visit (r.last + 1) r.start r.interval

/-- structured_grid.hpp: `structured_grid::cells()` — the full cell slice. -/
def cells_range (sc : Nat × Nat) : Except String range2d :=
  range2d.make (0, sc.1) (0, sc.2) sc

/-- structured_grid.hpp: `structured_grid::min_ifaces()` — slice `i ∈ [0, 1)`. -/
def min_ifaces_range (si : Nat × Nat) : Except String range2d :=
  range2d.make (0, 1) (0, si.2) si

/-- structured_grid.hpp: `structured_grid::max_ifaces()` — slice
`i ∈ [Ni.i − 1, Ni.i)`. -/
def max_ifaces_range (si : Nat × Nat) : Except String range2d :=
  range2d.make (si.1 - 1, si.1) (0, si.2) si

/-- structured_grid.hpp: `structured_grid::interior_ifaces()` — slice
`i ∈ [1, Ni.i − 1)`. -/
def interior_ifaces_range (si : Nat × Nat) : Except String range2d :=
  range2d.make (1, si.1 - 1) (0, si.2) si

/-- structured_grid.hpp: `structured_grid::min_jfaces()` — slice `j ∈ [0, 1)`. -/
def min_jfaces_range (sj : Nat × Nat) : Except String range2d :=
  range2d.make (0, sj.1) (0, 1) sj

/-- structured_grid.hpp: `structured_grid::max_jfaces()` — slice
`j ∈ [Nj.j − 1, Nj.j)`. -/
def max_jfaces_range (sj : Nat × Nat) : Except String range2d :=
  range2d.make (0, sj.1) (sj.2 - 1, sj.2) sj

/-- structured_grid.hpp: `structured_grid::interior_jfaces()` — slice
`j ∈ [1, Nj.j − 1)`. -/
def interior_jfaces_range (sj : Nat × Nat) : Except String range2d :=
  range2d.make (0, sj.1) (1, sj.2 - 1) sj

/-- The rows visited after the current one: row `k` starts at `s + k·b`
where `b = interval + offset` is the row stride. -/
def rowsList (s w b m : Nat) : List Nat :=
  (List.range m).flatMap fun k => List.range' (s + k * b) w

theorem rowsList_zero (s w b : Nat) : rowsList s w b 0 = [] := rfl

theorem rowsList_succ (s w b m : Nat) :
    rowsList s w b (m + 1) = List.range' s w ++ rowsList (s + b) w b m := by
  unfold rowsList
  rw [List.range_succ_eq_map, List.flatMap_cons, List.flatMap_map]
  congr 1
  · simp
  · congr 1
    funext k
    congr 1
    rw [Nat.succ_eq_add_one]
    ring

theorem rowsList_length (s w b m : Nat) : (rowsList s w b m).length = m * w := by
  induction m generalizing s with
  | zero => simp [rowsList_zero]
  | succ m ih =>
    rw [rowsList_succ, List.length_append, List.length_range', ih]
    ring

/-- Iteration starting at `end_` terminates immediately. -/
theorem range2d.visit_at_last (r : range2d) (fuel cnt : Nat) :
    r.visit fuel r.last cnt = [] := by
  cases fuel <;> simp [range2d.visit]

/-- The iterator of `range2d`, started at `cur` with countdown `cnt` and
with the end id one full-row-and-gap pattern away, visits exactly the rest
of the current row followed by `m` further rows. -/
theorem range2d.visit_eq (r : range2d) :
    ∀ fuel m cnt cur,
      0 < r.interval → 0 < cnt → cnt ≤ r.interval →
      r.last = cur + cnt + r.offset + m * (r.interval + r.offset) →
      cnt + m * r.interval ≤ fuel →
      r.visit fuel cur cnt =
        List.range' cur cnt ++
          rowsList (cur + cnt + r.offset) r.interval (r.interval + r.offset) m := by
  intro fuel
  induction fuel with
  | zero =>
    intro m cnt cur _ hcnt _ _ hfuel
    omega
  | succ fuel ih =>
    intro m cnt cur hint hcnt hle hlast hfuel
    have hne : cur ≠ r.last := by omega
    rw [range2d.visit, if_neg hne]
    by_cases hc : cnt - 1 = 0
    · have hc1 : cnt = 1 := by omega
      subst hc1
      rw [if_pos hc]
      cases m with
      | zero =>
        have hend : cur + 1 + r.offset = r.last := by omega
        rw [hend, range2d.visit_at_last]
        simp [rowsList_zero]
      | succ m =>
        have hx : (m + 1) * (r.interval + r.offset) =
            m * (r.interval + r.offset) + (r.interval + r.offset) := by ring
        have hy : (m + 1) * r.interval = m * r.interval + r.interval := by ring
        have hlast' : r.last =
            cur + 1 + r.offset + r.interval + r.offset + m * (r.interval + r.offset) := by
          rw [hx] at hlast
          omega
        have hfuel' : r.interval + m * r.interval ≤ fuel := by
          rw [hy] at hfuel
          omega
        rw [ih m r.interval (cur + 1 + r.offset) hint hint le_rfl hlast' hfuel']
        have h1 : List.range' cur 1 = [cur] := by simp
        have h2 : cur + 1 + r.offset + r.interval + r.offset =
            cur + 1 + r.offset + (r.interval + r.offset) := by omega
        rw [rowsList_succ, h1, h2]
        simp only [List.cons_append, List.nil_append]
    · rw [if_neg hc]
      obtain ⟨k, hk⟩ : ∃ k, cnt = k + 1 := ⟨cnt - 1, by omega⟩
      subst hk
      have hk0 : 0 < k := by omega
      have hv : r.visit fuel (cur + 1) (k + 1 - 1) = r.visit fuel (cur + 1) k := by
        norm_num
      have h3 : k ≤ r.interval := by omega
      have h4 : r.last = cur + 1 + k + r.offset + m * (r.interval + r.offset) := by omega
      have h5 : k + m * r.interval ≤ fuel := by omega
      have h6 : cur + 1 + k + r.offset = cur + (k + 1) + r.offset := by omega
      rw [hv, ih m k (cur + 1) hint hk0 h3 h4 h5, h6, List.range'_succ]
      simp only [List.cons_append]

/-- Inversion of the `% 2^64` wrap of `m − 1` for representable `m ≥ 1`. -/
theorem word_sub_one {m : Nat} (h1 : 1 ≤ m) (h2 : m ≤ wordSize) :
    (m + (wordSize - 1)) % wordSize = m - 1 := by
  have h : m + (wordSize - 1) = (m - 1) + 1 * wordSize := by
    unfold wordSize at h2 ⊢
    omega
  rw [h, Nat.add_mul_mod_self_right, Nat.mod_eq_of_lt (by unfold wordSize at h2 ⊢; omega)]

/-- Successful construction and exact element count of a `range2d` over the
slice `[i0, i1) × [j0, j1)` of a logical grid of size `(s1, s2)`. -/
theorem range2d.make_ok_length {i0 i1 j0 j1 s1 s2 : Nat}
    (hii : i0 < i1) (hi2 : i1 ≤ s1) (hjj : j0 < j1) (hj2 : j1 ≤ s2)
    (hw : s1 ≤ wordSize) :
    ∃ r, range2d.make (i0, i1) (j0, j1) (s1, s2) = Except.ok r ∧
      r.elems.length = (i1 - i0) * (j1 - j0) := by
  -- remove the Nat subtractions before reasoning about the iteration
  obtain ⟨d, hd⟩ : ∃ d, i1 = i0 + d + 1 := ⟨i1 - i0 - 1, by omega⟩
  obtain ⟨w, hwid⟩ : ∃ w, j1 = j0 + w + 1 := ⟨j1 - j0 - 1, by omega⟩
  subst hd hwid
  obtain ⟨o, ho⟩ : ∃ o, s2 = (w + 1) + o := ⟨s2 - (w + 1), by omega⟩
  have hi0 : i0 < s1 := lt_of_lt_of_le hii hi2
  have hj0 : j0 < s2 := lt_of_lt_of_le hjj hj2
  have hwrap : (i0 + d + 1 + (wordSize - 1)) % wordSize = i0 + d + 1 - 1 :=
    word_sub_one (by omega) (le_trans hi2 hw)
  have e1 : j0 + w + 1 - j0 = w + 1 := by omega
  have e2 : i0 + d + 1 - 1 = i0 + d := by omega
  have hi1 : i0 + d < s1 := by omega
  have hmk : range2d.make (i0, i0 + d + 1) (j0, j0 + w + 1) (s1, s2) =
      Except.ok ⟨i0 * s2 + j0, (i0 + d) * s2 + j0 + s2, w + 1, s2 - (w + 1)⟩ := by
    unfold range2d.make
    rw [compute_id_of_lt (by exact hi0) (by exact hj0)]
    simp only [except_ok_bind]
    rw [hwrap, e2]
    rw [compute_id_of_lt (by exact hi1) (by exact hj0)]
    simp only [except_ok_bind]
    rw [check_precondition_true _ hii, check_precondition_true _ hi2,
      check_precondition_true _ hjj, check_precondition_true _ hj2]
    simp only [except_ok_bind, e1]
    rfl
  refine ⟨_, hmk, ?_⟩
  have hlast : (i0 + d) * s2 + j0 + s2 =
      (i0 * s2 + j0) + (w + 1) + (s2 - (w + 1)) + d * ((w + 1) + (s2 - (w + 1))) := by
    rw [ho]
    have e3 : w + 1 + o - (w + 1) = o := by omega
    rw [e3]
    ring
  have hfuel : (w + 1) + d * (w + 1) ≤ (i0 + d) * s2 + j0 + s2 + 1 := by
    have hs2 : w + 1 ≤ s2 := by omega
    calc w + 1 + d * (w + 1) = (d + 1) * (w + 1) := by ring
      _ ≤ (d + 1) * s2 := Nat.mul_le_mul_left _ hs2
      _ = d * s2 + s2 := by ring
      _ ≤ (i0 + d) * s2 + j0 + s2 + 1 := by
          have : d * s2 ≤ (i0 + d) * s2 := Nat.mul_le_mul_right _ (by omega)
          omega
  have hv := range2d.visit_eq
    ⟨i0 * s2 + j0, (i0 + d) * s2 + j0 + s2, w + 1, s2 - (w + 1)⟩
    ((i0 + d) * s2 + j0 + s2 + 1) d (w + 1) (i0 * s2 + j0)
    (Nat.succ_pos w) (Nat.succ_pos w) le_rfl hlast hfuel
  show (range2d.visit _ ((i0 + d) * s2 + j0 + s2 + 1) (i0 * s2 + j0) (w + 1)).length = _
  rw [hv, List.length_append, List.length_range', rowsList_length]
  have e4 : i0 + d + 1 - i0 = d + 1 := by omega
  rw [e4, e1]
  ring

/-- Claim C7 (amended): with sizes at least 2 (and machine-representable),
`cells()` visits `Nc.i·Nc.j` ids, `min_i_faces()` visits `Ni.j` ids,
`min_j_faces()` visits `Nj.i` ids, and the interior ranges visit
`(Ni.i − 2)·Ni.j` resp. `Nj.i·(Nj.j − 2)` ids provided `Ni.i ≥ 3`
(resp. `Nj.j ≥ 3`); at `Ni.i = 2` (resp. `Nj.j = 2`) constructing the
interior range fails its strictly-sorted precondition instead of yielding
an empty range. -/
theorem range_counts (nvi nvj : Nat) (h1 : 2 ≤ nvi) (h2 : 2 ≤ nvj)
    (hw1 : nvi ≤ wordSize) (hw2 : nvj ≤ wordSize) :
    (∃ r, cells_range (nvi - 1, nvj - 1) = Except.ok r ∧
      r.elems.length = (nvi - 1) * (nvj - 1)) ∧
    (∃ r, min_ifaces_range (nvi, nvj - 1) = Except.ok r ∧
      r.elems.length = nvj - 1) ∧
    (∃ r, min_jfaces_range (nvi - 1, nvj) = Except.ok r ∧
      r.elems.length = nvi - 1) ∧
    (3 ≤ nvi → ∃ r, interior_ifaces_range (nvi, nvj - 1) = Except.ok r ∧
      r.elems.length = (nvi - 2) * (nvj - 1)) ∧
    (3 ≤ nvj → ∃ r, interior_jfaces_range (nvi - 1, nvj) = Except.ok r ∧
      r.elems.length = (nvi - 1) * (nvj - 2)) := by
  refine ⟨?_, ?_, ?_, ?_, ?_⟩
  · obtain ⟨r, hr, hl⟩ := @range2d.make_ok_length 0 (nvi - 1) 0 (nvj - 1)
      (nvi - 1) (nvj - 1)
      (by omega) le_rfl (by omega) le_rfl (by unfold wordSize at hw1 ⊢; omega)
    exact ⟨r, hr, by rw [hl]; simp⟩
  · obtain ⟨r, hr, hl⟩ := @range2d.make_ok_length 0 1 0 (nvj - 1) nvi (nvj - 1)
      (by omega) (by omega) (by omega) le_rfl hw1
    exact ⟨r, hr, by rw [hl]; simp⟩
  · obtain ⟨r, hr, hl⟩ := @range2d.make_ok_length 0 (nvi - 1) 0 1 (nvi - 1) nvj
      (by omega) le_rfl (by omega) (by omega) (by unfold wordSize at hw1 ⊢; omega)
    exact ⟨r, hr, by rw [hl]; simp⟩
  · intro h3
    obtain ⟨r, hr, hl⟩ := @range2d.make_ok_length 1 (nvi - 1) 0 (nvj - 1)
      nvi (nvj - 1)
      (by omega) (by omega) (by omega) le_rfl hw1
    refine ⟨r, hr, ?_⟩
    rw [hl]
    have e : nvi - 1 - 1 = nvi - 2 := by omega
    rw [e]
    simp
  · intro h3
    obtain ⟨r, hr, hl⟩ := @range2d.make_ok_length 0 (nvi - 1) 1 (nvj - 1)
      (nvi - 1) nvj
      (by omega) le_rfl (by omega) (by omega) (by unfold wordSize at hw1 ⊢; omega)
    refine ⟨r, hr, ?_⟩
    rw [hl]
    have e : nvj - 1 - 1 = nvj - 2 := by omega
    rw [e]
    simp

/-- Witness for C7 (amended) at the concrete vertex sizes `(3, 3)`. -/
theorem range_counts_witness :
    2 ≤ 3 ∧ (3 : Nat) ≤ wordSize ∧
    ((∃ r, cells_range (3 - 1, 3 - 1) = Except.ok r ∧
      r.elems.length = (3 - 1) * (3 - 1)) ∧
    (∃ r, min_ifaces_range (3, 3 - 1) = Except.ok r ∧
      r.elems.length = 3 - 1) ∧
    (∃ r, min_jfaces_range (3 - 1, 3) = Except.ok r ∧
      r.elems.length = 3 - 1) ∧
    (3 ≤ 3 → ∃ r, interior_ifaces_range (3, 3 - 1) = Except.ok r ∧
      r.elems.length = (3 - 2) * (3 - 1)) ∧
    (3 ≤ 3 → ∃ r, interior_jfaces_range (3 - 1, 3) = Except.ok r ∧
      r.elems.length = (3 - 1) * (3 - 2))) :=
  ⟨by omega, by unfold wordSize; omega,
    range_counts 3 3 (by omega) (by omega)
      (by unfold wordSize; omega) (by unfold wordSize; omega)⟩

/-- Counterexample to C7 as stated: on a grid two vertices wide
(`Nvi = 2`, so `Ni.i = 2` and `size_iface = (2, Nvj − 1)`; here `Nvj = 2`),
constructing `interior_ifaces()` does not yield an empty range — it fails
the `range2d` precondition `irange must be strictly sorted`. -/
theorem interior_ifaces_range_two_fails :
    interior_ifaces_range (2, 1) = Except.error "irange must be strictly sorted" := by
  rfl

/-! ## Face-to-cell neighbor lookup (structured_grid.hpp)

`iface_handle::cell(n)` recovers the face coordinates from the face id,
shifts the i coordinate by `n − 1` in `std::size_t` arithmetic (so `n = 0`
wraps to a huge value on the `i = 0` boundary), and converts to a cell id
with `compute_cell_id`, whose debug range check rejects the missing
neighbor.  `jface_handle::cell(n)` shifts the j coordinate instead.
`sc`, `si`, `sj` are `size_cell_`, `size_iface_`, `size_jface_`. -/

namespace iface_handle

/-- structured_grid.hpp: `structured_grid::iface_handle::cell(n)`. -/
def cell (sc si : Nat × Nat) (id n : Nat) : Except String Nat := do
  let _ ← check_precondition (n < 2) "Cell index is out of range"
  let coords ← compute_coordinates id si
  compute_id ((coords.1 + (n + (wordSize - 1))) % wordSize, coords.2) sc

end iface_handle

namespace jface_handle

/-- structured_grid.hpp: `structured_grid::jface_handle::cell(n)`. -/
def cell (sc sj : Nat × Nat) (id n : Nat) : Except String Nat := do
  let _ ← check_precondition (n < 2) "Cell index is out of range"
  let coords ← compute_coordinates id sj
  compute_id (coords.1, (coords.2 + (n + (wordSize - 1))) % wordSize) sc

end jface_handle

theorem compute_coordinates_of_row (i j : Nat) (size : Nat × Nat)
    (hi : i < size.1) (hj : j < size.2) :
    compute_coordinates (i * size.2 + j) size = Except.ok (i, j) := by
  rw [compute_coordinates_ok_iff]
  obtain ⟨hdiv, hsub⟩ := row_major_div_sub i j size.2 (by omega) hj
  refine ⟨?_, by rw [hdiv, Prod.mk.injEq]; exact ⟨rfl, by omega⟩⟩
  calc i * size.2 + j < i * size.2 + size.2 := by omega
    _ = (i + 1) * size.2 := by ring
    _ ≤ size.1 * size.2 := Nat.mul_le_mul_right _ (by omega)

theorem compute_id_error_i {coords size : Nat × Nat} (h : ¬ coords.1 < size.1) :
    compute_id coords size = Except.error "i-index is out of range." := by
  unfold compute_id check_precondition
  rw [if_neg h]
  rfl

theorem compute_id_error_j {coords size : Nat × Nat} (h1 : coords.1 < size.1)
    (h2 : ¬ coords.2 < size.2) :
    compute_id coords size = Except.error "j-index is out of range." := by
  unfold compute_id check_precondition
  rw [if_pos h1, if_neg h2]
  rfl

theorem iface_cell_eq (sc si : Nat × Nat) (id n : Nat) (hn : n < 2) (i j : Nat)
    (hco : compute_coordinates id si = Except.ok (i, j)) :
    iface_handle.cell sc si id n =
      compute_id ((i + (n + (wordSize - 1))) % wordSize, j) sc := by
  unfold iface_handle.cell
  rw [check_precondition_true _ hn]
  simp only [except_ok_bind]
  rw [hco]
  simp only [except_ok_bind]

theorem jface_cell_eq (sc sj : Nat × Nat) (id n : Nat) (hn : n < 2) (i j : Nat)
    (hco : compute_coordinates id sj = Except.ok (i, j)) :
    jface_handle.cell sc sj id n =
      compute_id (i, (j + (n + (wordSize - 1))) % wordSize) sc := by
  unfold jface_handle.cell
  rw [check_precondition_true _ hn]
  simp only [except_ok_bind]
  rw [hco]
  simp only [except_ok_bind]

theorem wrap_n_zero_pos {i : Nat} (h1 : 1 ≤ i) (h2 : i ≤ wordSize) :
    (i + (0 + (wordSize - 1))) % wordSize = i - 1 := by
  rw [Nat.zero_add]
  exact word_sub_one h1 h2

theorem wrap_n_zero_at_zero : (0 + (0 + (wordSize - 1))) % wordSize = wordSize - 1 := by
  rw [Nat.zero_add, Nat.zero_add]
  exact Nat.mod_eq_of_lt (by unfold wordSize; omega)

theorem wrap_n_one {i : Nat} (h : i < wordSize) :
    (i + (1 + (wordSize - 1))) % wordSize = i := by
  have e : 1 + (wordSize - 1) = wordSize := by unfold wordSize; omega
  rw [e, Nat.add_mod_right]
  exact Nat.mod_eq_of_lt h

/-- Claim C6: on a grid with `Nvi, Nvj ≥ 2` (machine-representable),
`iface_handle::cell(n)` fails the cell-index range check (the spec's
`NoNeighbor`) exactly when the missing neighbor of a boundary i-face is
requested (`n = 0` at `i = 0`, `n = 1` at `i = Nvi − 1`), and succeeds on
both sides of every interior i-face; analogously for `jface_handle::cell(n)`
at the j boundaries. -/
theorem face_cell_neighbor (nvi nvj : Nat) (h1 : 2 ≤ nvi) (h2 : 2 ≤ nvj)
    (hw1 : nvi < wordSize) (hw2 : nvj < wordSize) :
    (∀ i j, i < nvi → j < nvj - 1 →
      (i = 0 → iface_handle.cell (nvi - 1, nvj - 1) (nvi, nvj - 1) (i * (nvj - 1) + j) 0 =
        Except.error "i-index is out of range.") ∧
      (i = nvi - 1 → iface_handle.cell (nvi - 1, nvj - 1) (nvi, nvj - 1) (i * (nvj - 1) + j) 1 =
        Except.error "i-index is out of range.") ∧
      (0 < i → iface_handle.cell (nvi - 1, nvj - 1) (nvi, nvj - 1) (i * (nvj - 1) + j) 0 =
        Except.ok ((i - 1) * (nvj - 1) + j)) ∧
      (i < nvi - 1 → iface_handle.cell (nvi - 1, nvj - 1) (nvi, nvj - 1) (i * (nvj - 1) + j) 1 =
        Except.ok (i * (nvj - 1) + j))) ∧
    (∀ i j, i < nvi - 1 → j < nvj →
      (j = 0 → jface_handle.cell (nvi - 1, nvj - 1) (nvi - 1, nvj) (i * nvj + j) 0 =
        Except.error "j-index is out of range.") ∧
      (j = nvj - 1 → jface_handle.cell (nvi - 1, nvj - 1) (nvi - 1, nvj) (i * nvj + j) 1 =
        Except.error "j-index is out of range.") ∧
      (0 < j → jface_handle.cell (nvi - 1, nvj - 1) (nvi - 1, nvj) (i * nvj + j) 0 =
        Except.ok (i * (nvj - 1) + (j - 1))) ∧
      (j < nvj - 1 → jface_handle.cell (nvi - 1, nvj - 1) (nvi - 1, nvj) (i * nvj + j) 1 =
        Except.ok (i * (nvj - 1) + j))) := by
  constructor
  · intro i j hi hj
    have hco : compute_coordinates (i * (nvj - 1) + j) (nvi, nvj - 1) = Except.ok (i, j) :=
      compute_coordinates_of_row i j (nvi, nvj - 1) hi hj
    refine ⟨?_, ?_, ?_, ?_⟩
    · intro hz
      subst hz
      rw [iface_cell_eq _ _ _ 0 (by omega) _ _ hco, wrap_n_zero_at_zero]
      exact compute_id_error_i (by unfold wordSize at hw1 ⊢; omega)
    · intro hmax
      rw [iface_cell_eq _ _ _ 1 (by omega) _ _ hco, wrap_n_one (by omega)]
      exact compute_id_error_i (by omega)
    · intro hpos
      rw [iface_cell_eq _ _ _ 0 (by omega) _ _ hco,
        wrap_n_zero_pos hpos (by omega)]
      exact compute_id_of_lt (by omega) (by omega)
    · intro hlt
      rw [iface_cell_eq _ _ _ 1 (by omega) _ _ hco, wrap_n_one (by omega)]
      exact compute_id_of_lt (by omega) (by omega)
  · intro i j hi hj
    have hco : compute_coordinates (i * nvj + j) (nvi - 1, nvj) = Except.ok (i, j) :=
      compute_coordinates_of_row i j (nvi - 1, nvj) hi hj
    refine ⟨?_, ?_, ?_, ?_⟩
    · intro hz
      subst hz
      rw [jface_cell_eq _ _ _ 0 (by omega) _ _ hco, wrap_n_zero_at_zero]
      exact compute_id_error_j (by omega) (by unfold wordSize at hw2 ⊢; omega)
    · intro hmax
      rw [jface_cell_eq _ _ _ 1 (by omega) _ _ hco, wrap_n_one (by omega)]
      exact compute_id_error_j (by omega) (by omega)
    · intro hpos
      rw [jface_cell_eq _ _ _ 0 (by omega) _ _ hco,
        wrap_n_zero_pos hpos (by omega)]
      exact compute_id_of_lt (by omega) (by omega)
    · intro hlt
      rw [jface_cell_eq _ _ _ 1 (by omega) _ _ hco, wrap_n_one (by omega)]
      exact compute_id_of_lt (by omega) (by omega)

/-- Witness for C6 at the concrete vertex sizes `(3, 3)`. -/
theorem face_cell_neighbor_witness :
    2 ≤ 3 ∧ (3 : Nat) < wordSize ∧
    ((∀ i j, i < 3 → j < 3 - 1 →
      (i = 0 → iface_handle.cell (3 - 1, 3 - 1) (3, 3 - 1) (i * (3 - 1) + j) 0 =
        Except.error "i-index is out of range.") ∧
      (i = 3 - 1 → iface_handle.cell (3 - 1, 3 - 1) (3, 3 - 1) (i * (3 - 1) + j) 1 =
        Except.error "i-index is out of range.") ∧
      (0 < i → iface_handle.cell (3 - 1, 3 - 1) (3, 3 - 1) (i * (3 - 1) + j) 0 =
        Except.ok ((i - 1) * (3 - 1) + j)) ∧
      (i < 3 - 1 → iface_handle.cell (3 - 1, 3 - 1) (3, 3 - 1) (i * (3 - 1) + j) 1 =
        Except.ok (i * (3 - 1) + j))) ∧
    (∀ i j, i < 3 - 1 → j < 3 →
      (j = 0 → jface_handle.cell (3 - 1, 3 - 1) (3 - 1, 3) (i * 3 + j) 0 =
        Except.error "j-index is out of range.") ∧
      (j = 3 - 1 → jface_handle.cell (3 - 1, 3 - 1) (3 - 1, 3) (i * 3 + j) 1 =
        Except.error "j-index is out of range.") ∧
      (0 < j → jface_handle.cell (3 - 1, 3 - 1) (3 - 1, 3) (i * 3 + j) 0 =
        Except.ok (i * (3 - 1) + (j - 1))) ∧
      (j < 3 - 1 → jface_handle.cell (3 - 1, 3 - 1) (3 - 1, 3) (i * 3 + j) 1 =
        Except.ok (i * (3 - 1) + j)))) :=
  ⟨by omega, by unfold wordSize; omega,
    face_cell_neighbor 3 3 (by omega) (by omega)
      (by unfold wordSize; omega) (by unfold wordSize; omega)⟩

/-! ## Face topology of `compute_rhs` (finite_volume.cpp)

The six loops of `finite_volume::compute_rhs` iterate the named face ranges
and look up neighbor cell ids through the face handles.  This is the only
fallible part of `compute_rhs` (debug precondition checks); the flux
arithmetic is total.  `face_topology` evaluates exactly those range
constructions and neighbor lookups, in source order. -/

/-- Sequential evaluation of a fallible loop body over a list of face ids. -/
def forE {β : Type} (f : Nat → Except String β) : List Nat → Except String (List β)
  | [] => Except.ok []
  | x :: xs => do
    let y ← f x
    let ys ← forE f xs
    pure (y :: ys)

/-- For each interior face, `(face id, cell(0) id, cell(1) id)`; for each
boundary face, `(face id, accumulated cell id)` — cell(1) for the min
ranges, cell(0) for the max ranges, as in `compute_rhs`. -/
structure face_topology_data where
  interior_i : List (Nat × Nat × Nat)
  interior_j : List (Nat × Nat × Nat)
  min_i : List (Nat × Nat)
  max_i : List (Nat × Nat)
  min_j : List (Nat × Nat)
  max_j : List (Nat × Nat)
deriving DecidableEq, Repr

/-- The face ids and neighbor cell ids visited by the six loops of
`finite_volume::compute_rhs`, in source order, over a grid with vertex
sizes `(nvi, nvj)` (so `size_cell = (nvi−1, nvj−1)`,
`size_iface = (nvi, nvj−1)`, `size_jface = (nvi−1, nvj)`). -/
def face_topology (nvi nvj : Nat) : Except String face_topology_data := do
  let ii ← interior_ifaces_range (nvi, nvj - 1)
  let iI ← forE (fun id => do
    let l ← iface_handle.cell (nvi - 1, nvj - 1) (nvi, nvj - 1) id 0
    let r ← iface_handle.cell (nvi - 1, nvj - 1) (nvi, nvj - 1) id 1
    pure (id, l, r)) ii.elems
  let jj ← interior_jfaces_range (nvi - 1, nvj)
  let iJ ← forE (fun id => do
    let l ← jface_handle.cell (nvi - 1, nvj - 1) (nvi - 1, nvj) id 0
    let r ← jface_handle.cell (nvi - 1, nvj - 1) (nvi - 1, nvj) id 1
    pure (id, l, r)) jj.elems
  let mi ← min_ifaces_range (nvi, nvj - 1)
  let lmi ← forE (fun id => do
    let c ← iface_handle.cell (nvi - 1, nvj - 1) (nvi, nvj - 1) id 1
    pure (id, c)) mi.elems
  let xi ← max_ifaces_range (nvi, nvj - 1)
  let lxi ← forE (fun id => do
    let c ← iface_handle.cell (nvi - 1, nvj - 1) (nvi, nvj - 1) id 0
    pure (id, c)) xi.elems
  let mj ← min_jfaces_range (nvi - 1, nvj)
  let lmj ← forE (fun id => do
    let c ← jface_handle.cell (nvi - 1, nvj - 1) (nvi - 1, nvj) id 1
    pure (id, c)) mj.elems
  let xj ← max_jfaces_range (nvi - 1, nvj)
  let lxj ← forE (fun id => do
    let c ← jface_handle.cell (nvi - 1, nvj - 1) (nvi - 1, nvj) id 0
    pure (id, c)) xj.elems
  pure ⟨iI, iJ, lmi, lxi, lmj, lxj⟩

theorem forE_ok_mem {β : Type} {f : Nat → Except String β} :
    ∀ {l : List Nat} {out : List β}, forE f l = Except.ok out →
      ∀ y ∈ out, ∃ x ∈ l, f x = Except.ok y := by
  intro l
  induction l with
  | nil =>
    intro out h y hy
    unfold forE at h
    simp only [Except.ok.injEq] at h
    subst h
    simp at hy
  | cons x xs ih =>
    intro out h y hy
    unfold forE at h
    obtain ⟨a, ha, h⟩ := except_bind_ok_elim h
    obtain ⟨as, has, h⟩ := except_bind_ok_elim h
    have hout : out = a :: as := by
      have : (pure (a :: as) : Except String (List β)) = Except.ok (a :: as) := rfl
      rw [this, Except.ok.injEq] at h
      exact h.symm
    subst hout
    rcases List.mem_cons.mp hy with rfl | hy
    · exact ⟨x, List.mem_cons_self x xs, ha⟩
    · obtain ⟨x', hx', hfx⟩ := ih has y hy
      exact ⟨x', List.mem_cons_of_mem x hx', hfx⟩

theorem forE_ok_map_fst {β : Type} {f : Nat → Except String β} (g : β → Nat)
    (hg : ∀ x y, f x = Except.ok y → g y = x) :
    ∀ {l : List Nat} {out : List β}, forE f l = Except.ok out → out.map g = l := by
  intro l
  induction l with
  | nil =>
    intro out h
    unfold forE at h
    simp only [Except.ok.injEq] at h
    subst h
    rfl
  | cons x xs ih =>
    intro out h
    unfold forE at h
    obtain ⟨a, ha, h⟩ := except_bind_ok_elim h
    obtain ⟨as, has, h⟩ := except_bind_ok_elim h
    have hout : out = a :: as := by
      have : (pure (a :: as) : Except String (List β)) = Except.ok (a :: as) := rfl
      rw [this, Except.ok.injEq] at h
      exact h.symm
    subst hout
    rw [List.map_cons, hg x a ha, ih has]

theorem triple_body_inv {F0 F1 : Except String Nat} {x : Nat} {y : Nat × Nat × Nat}
    (h : (do
      let l ← F0
      let r ← F1
      pure (x, l, r) : Except String (Nat × Nat × Nat)) = Except.ok y) :
    y.1 = x ∧ F0 = Except.ok y.2.1 ∧ F1 = Except.ok y.2.2 := by
  obtain ⟨l, hl, h⟩ := except_bind_ok_elim h
  obtain ⟨r, hr, h⟩ := except_bind_ok_elim h
  have : y = (x, l, r) := by
    have hp : (pure (x, l, r) : Except String (Nat × Nat × Nat)) = Except.ok (x, l, r) := rfl
    rw [hp, Except.ok.injEq] at h
    exact h.symm
  subst this
  exact ⟨rfl, hl, hr⟩

theorem pair_body_inv {F : Except String Nat} {x : Nat} {y : Nat × Nat}
    (h : (do
      let c ← F
      pure (x, c) : Except String (Nat × Nat)) = Except.ok y) :
    y.1 = x ∧ F = Except.ok y.2 := by
  obtain ⟨c, hc, h⟩ := except_bind_ok_elim h
  have : y = (x, c) := by
    have hp : (pure (x, c) : Except String (Nat × Nat)) = Except.ok (x, c) := rfl
    rw [hp, Except.ok.injEq] at h
    exact h.symm
  subst this
  exact ⟨rfl, hc⟩

/-! ## Grid geometry (structured_grid.cpp) -/

noncomputable section

/-- structured_grid.hpp: the grid data — logical vertex sizes and the vertex
array, row-major with j fastest (`vertices_[i·Nvj + j]`). -/
structure structured_grid where
  nvi : Nat
  nvj : Nat
  vertices : List (ℝ × ℝ)

/-- structured_grid.hpp: the `structured_grid(size, vertices)` constructor
with its three precondition checks. -/
def structured_grid.mk' (size : Nat × Nat) (vertices : List (ℝ × ℝ)) :
    Except String structured_grid := do
  let _ ← check_precondition (2 ≤ size.1) "size[0] must be 2 or more."
  let _ ← check_precondition (2 ≤ size.2) "size[1] must be 2 or more."
  let _ ← check_precondition (vertices.length = size.1 * size.2)
    "Length of vertex vector doesn't match size argument."
  pure ⟨size.1, size.2, vertices⟩

/-- structured_grid.hpp: `vertex(i, j) = vertices_[compute_vertex_id({i, j})]`. -/
def structured_grid.vertex (g : structured_grid) (i j : Nat) : ℝ × ℝ :=
  g.vertices.getD (i * g.nvj + j) (0, 0)

/-- structured_grid.hpp: `num_cell() = size_cell(0) · size_cell(1)`. -/
def num_cell (g : structured_grid) : Nat := (g.nvi - 1) * (g.nvj - 1)

/-- common.hpp: `cross2d(x, y) = x[0]·y[1] − x[1]·y[0]`. -/
def cross2d (x y : ℝ × ℝ) : ℝ := x.1 * y.2 - x.2 * y.1

/-- structured_grid.cpp: `init_cell_volumes` — the cached volume of the
cell with id `id`: `0.5·(cross(v1 − v0, v3 − v0) + cross(v3 − v2, v1 − v2))`
over the four CCW corners of the cell at `compute_cell_coordinates(id)`. -/
def cell_volume (g : structured_grid) (id : Nat) : ℝ :=
  let i := id / (g.nvj - 1)
  let j := id - i * (g.nvj - 1)
  let v0 := g.vertex i j
  let v1 := g.vertex (i + 1) j
  let v2 := g.vertex (i + 1) (j + 1)
  let v3 := g.vertex i (j + 1)
  0.5 * (cross2d (v1 - v0) (v3 - v0) + cross2d (v3 - v2) (v1 - v2))

/-- structured_grid.cpp: `init_face_areas` — the cached area vector of the
i-face with id `id`: `(−(v1.y − v0.y), v1.x − v0.x)` with
`v0 = vertex(i, j+1)`, `v1 = vertex(i, j)` at the face coordinates. -/
def iface_area (g : structured_grid) (id : Nat) : ℝ × ℝ :=
  let i := id / (g.nvj - 1)
  let j := id - i * (g.nvj - 1)
  let v0 := g.vertex i (j + 1)
  let v1 := g.vertex i j
  (-(v1.2 - v0.2), v1.1 - v0.1)

/-- structured_grid.cpp: `init_face_areas` — the cached area vector of the
j-face with id `id`: `(−(v1.y − v0.y), v1.x − v0.x)` with
`v0 = vertex(i, j)`, `v1 = vertex(i+1, j)` at the face coordinates. -/
def jface_area (g : structured_grid) (id : Nat) : ℝ × ℝ :=
  let i := id / g.nvj
  let j := id - i * g.nvj
  let v0 := g.vertex i j
  let v1 := g.vertex (i + 1) j
  (-(v1.2 - v0.2), v1.1 - v0.1)

/-- Modelled from the spec: `structured_grid::translate(offset)` — the
definition is absent from the source files (only its declaration and a
caller are present).  Spec: "translate(offset) adds offset to every vertex.
Cached face-area vectors and cell volumes are left unchanged"; in this
embedding geometry is recomputed from vertices, and invariance of volumes
under translation is proved as a theorem. -/
def structured_grid.translate (g : structured_grid) (offset : ℝ × ℝ) : structured_grid :=
  { g with vertices := g.vertices.map fun v => v + offset }

/-! ## Finite-volume assembler (finite_volume.cpp) -/

/-- finite_volume.hpp/cpp: the assembler holds a borrowed grid and the
per-cell cache `inverse_volumes_`. -/
structure finite_volume where
  grid : structured_grid
  inverse_volumes : Nat → ℝ

/-- finite_volume.cpp: `update_inverse_volumes` — caches `1.0 / volume(c)`
for every cell. -/
def finite_volume.update_inverse_volumes (fv : finite_volume) : finite_volume :=
  { fv with inverse_volumes := fun c => 1 / cell_volume fv.grid c }

/-- An assembler freshly constructed over `g`, with inverse volumes cached. -/
def finite_volume.of_grid (g : structured_grid) : finite_volume :=
  finite_volume.update_inverse_volumes ⟨g, fun _ => 0⟩

/-- Modelled from the spec: the canonical `finite_volume` constructor.  The
finite_volume.cpp present uses members (`inverse_volumes_`,
`update_inverse_volumes`) whose declaring header is not among the source
files (the header present is an older surface without them), so the
constructor's checks are taken from the spec: "a degenerate cell with zero
volume is precondition-checked at construction and fails with
`DegenerateCell`"; on success the inverse volumes are cached as the visible
`update_inverse_volumes` computes them. -/
def finite_volume.make (g : structured_grid) : Except String finite_volume :=
  if ∃ c, c < num_cell g ∧ cell_volume g c = 0 then
    Except.error "DegenerateCell"
  else
    Except.ok (finite_volume.of_grid g)

/-- Residual update `R[c] += v` on the function model of the residual. -/
def upd (R : Nat → euler.flux) (c : Nat) (v : euler.flux) : Nat → euler.flux :=
  fun x => if x = c then R x + v else R x

/-- finite_volume.cpp: an interior-face loop of `compute_rhs`:
`R[left] -= flux; R[right] += flux` with
`flux = jump_flux(U[left], U[right], f.area())`. -/
def accum_jump (gp : gas_props) (area : Nat → ℝ × ℝ) (U : Nat → euler.state)
    (faces : List (Nat × Nat × Nat)) (R : Nat → euler.flux) : Nat → euler.flux :=
  faces.foldl (fun R p =>
    let fl := euler.compute_jump_flux gp (U p.2.1) (U p.2.2) (area p.1)
    upd (upd R p.2.1 (-fl)) p.2.2 fl) R

/-- finite_volume.cpp: a boundary-face loop of `compute_rhs`: one signed
flux contribution per face, accumulated into the face's single neighbor. -/
def accum_faces (contrib : Nat → Nat → euler.flux) (faces : List (Nat × Nat))
    (R : Nat → euler.flux) : Nat → euler.flux :=
  faces.foldl (fun R p => upd R p.2 (contrib p.1 p.2)) R

/-- finite_volume.cpp: `compute_rhs(t, U)`.  The fallible topological part
(range construction and neighbor lookup) is evaluated by `face_topology`;
on success the six loops accumulate fluxes in source order, and the result
is multiplied elementwise by `inverse_volumes_`. -/
def compute_rhs (gp : gas_props) (freestream : euler.state) (fv : finite_volume)
    (t : ℝ) (U : Nat → euler.state) : Except String (Nat → euler.flux) :=
  (face_topology fv.grid.nvi fv.grid.nvj).map fun tp =>
    let R0 : Nat → euler.flux := fun _ => 0
    let R1 := accum_jump gp (iface_area fv.grid) U tp.interior_i R0
    let R2 := accum_jump gp (jface_area fv.grid) U tp.interior_j R1
    let R3 := accum_faces
      (fun f c => euler.compute_flux gp (U c) (iface_area fv.grid f)) tp.min_i R2
    let R4 := accum_faces
      (fun f c => -euler.compute_flux gp (U c) (iface_area fv.grid f)) tp.max_i R3
    let R5 := accum_faces
      (fun f c => euler.compute_wall_flux gp (U c) (jface_area fv.grid f)) tp.min_j R4
    let R6 := accum_faces
      (fun f c => -euler.compute_freestream_flux gp freestream (U c) (jface_area fv.grid f))
      tp.max_j R5
    fun c => fv.inverse_volumes c • R6 c

/-! ### Pointwise form of the accumulation loops -/

theorem accum_faces_apply (contrib : Nat → Nat → euler.flux) (faces : List (Nat × Nat)) :
    ∀ (R : Nat → euler.flux) (c : Nat),
      accum_faces contrib faces R c =
        R c + (faces.map fun p => if c = p.2 then contrib p.1 p.2 else 0).sum := by
  induction faces with
  | nil => intro R c; simp [accum_faces]
  | cons p ps ih =>
    intro R c
    have hstep : accum_faces contrib (p :: ps) R =
        accum_faces contrib ps (upd R p.2 (contrib p.1 p.2)) := rfl
    rw [hstep, ih, List.map_cons, List.sum_cons]
    unfold upd
    by_cases h : c = p.2
    · rw [if_pos h, if_pos h, add_assoc]
    · rw [if_neg h, if_neg h, zero_add]

theorem accum_jump_apply (gp : gas_props) (area : Nat → ℝ × ℝ) (U : Nat → euler.state)
    (faces : List (Nat × Nat × Nat)) :
    ∀ (R : Nat → euler.flux) (c : Nat),
      accum_jump gp area U faces R c =
        R c + (faces.map fun p =>
          (if c = p.2.2 then euler.compute_jump_flux gp (U p.2.1) (U p.2.2) (area p.1) else 0) -
          (if c = p.2.1 then euler.compute_jump_flux gp (U p.2.1) (U p.2.2) (area p.1) else 0)).sum := by
  induction faces with
  | nil => intro R c; simp [accum_jump]
  | cons p ps ih =>
    intro R c
    have hstep : accum_jump gp area U (p :: ps) R =
        accum_jump gp area U ps
          (upd (upd R p.2.1 (-euler.compute_jump_flux gp (U p.2.1) (U p.2.2) (area p.1)))
            p.2.2 (euler.compute_jump_flux gp (U p.2.1) (U p.2.2) (area p.1))) := rfl
    rw [hstep, ih, List.map_cons, List.sum_cons]
    unfold upd
    split_ifs <;> abel

/-! ### Shape of the visited id lists -/

theorem mem_rowsList {s w b m x : Nat} :
    x ∈ rowsList s w b m ↔ ∃ k, k < m ∧ s + k * b ≤ x ∧ x < s + k * b + w := by
  unfold rowsList
  simp [List.mem_flatMap, List.mem_range, List.mem_range'_1]

theorem rowsList_pairwise {w b : Nat} (hwb : w ≤ b) :
    ∀ (m s : Nat), List.Pairwise (· < ·) (rowsList s w b m) := by
  intro m
  induction m with
  | zero => intro s; simp [rowsList_zero]
  | succ m ih =>
    intro s
    rw [rowsList_succ]
    rw [List.pairwise_append]
    refine ⟨List.pairwise_lt_range' _ _, ih (s + b), ?_⟩
    intro x hx y hy
    have hx' := (List.mem_range'_1).mp hx
    obtain ⟨k, _, hy1, _⟩ := mem_rowsList.mp hy
    omega

theorem row_rows_pairwise {cur cnt o w b m : Nat} (hcnt : cnt ≤ b) (hwb : w ≤ b) :
    List.Pairwise (· < ·)
      (List.range' cur cnt ++ rowsList (cur + cnt + o) w b m) := by
  rw [List.pairwise_append]
  refine ⟨List.pairwise_lt_range' _ _, rowsList_pairwise hwb m _, ?_⟩
  intro x hx y hy
  have hx' := (List.mem_range'_1).mp hx
  obtain ⟨k, _, hy1, _⟩ := mem_rowsList.mp hy
  omega

/-- From a successful `range2d` construction: the four range preconditions. -/
theorem range2d.make_ok_inv {ir jr sz : Nat × Nat} {r : range2d}
    (h : range2d.make ir jr sz = Except.ok r) :
    ir.1 < ir.2 ∧ ir.2 ≤ sz.1 ∧ jr.1 < jr.2 ∧ jr.2 ≤ sz.2 := by
  unfold range2d.make at h
  obtain ⟨s, hs, h⟩ := except_bind_ok_elim h
  obtain ⟨e, he, h⟩ := except_bind_ok_elim h
  obtain ⟨u1, hu1, h⟩ := except_bind_ok_elim h
  obtain ⟨u2, hu2, h⟩ := except_bind_ok_elim h
  obtain ⟨u3, hu3, h⟩ := except_bind_ok_elim h
  obtain ⟨u4, hu4, h⟩ := except_bind_ok_elim h
  exact ⟨check_precondition_ok_iff.mp hu1, check_precondition_ok_iff.mp hu2,
    check_precondition_ok_iff.mp hu3, check_precondition_ok_iff.mp hu4⟩

/-- From a successful `range2d` construction: the visited id list has no
duplicates, and every visited id is `a·size[1] + b` for slice coordinates
`(a, b)`. -/
theorem range2d.make_ok_elems {ir jr sz : Nat × Nat} {r : range2d}
    (h : range2d.make ir jr sz = Except.ok r) (hw : sz.1 ≤ wordSize) :
    r.elems.Nodup ∧
    (∀ x ∈ r.elems, ∃ a b, ir.1 ≤ a ∧ a < ir.2 ∧ jr.1 ≤ b ∧ b < jr.2 ∧
      x = a * sz.2 + b) := by
  obtain ⟨i0, i1⟩ := ir
  obtain ⟨j0, j1⟩ := jr
  obtain ⟨s1, s2⟩ := sz
  obtain ⟨hii, hi2, hjj, hj2⟩ := range2d.make_ok_inv h
  simp only at hii hi2 hjj hj2 hw
  dsimp only at h ⊢
  obtain ⟨d, hd⟩ : ∃ d, i1 = i0 + d + 1 := ⟨i1 - i0 - 1, by omega⟩
  obtain ⟨w, hwid⟩ : ∃ w, j1 = j0 + w + 1 := ⟨j1 - j0 - 1, by omega⟩
  subst hd hwid
  obtain ⟨o, ho⟩ : ∃ o, s2 = (w + 1) + o := ⟨s2 - (w + 1), by omega⟩
  have hi0 : i0 < s1 := by omega
  have hj0 : j0 < s2 := by omega
  have hwrap : (i0 + d + 1 + (wordSize - 1)) % wordSize = i0 + d + 1 - 1 :=
    word_sub_one (by omega) (by omega)
  have e1 : j0 + w + 1 - j0 = w + 1 := by omega
  have e2 : i0 + d + 1 - 1 = i0 + d := by omega
  have hi1 : i0 + d < s1 := by omega
  have hmk : range2d.make (i0, i0 + d + 1) (j0, j0 + w + 1) (s1, s2) =
      Except.ok ⟨i0 * s2 + j0, (i0 + d) * s2 + j0 + s2, w + 1, s2 - (w + 1)⟩ := by
    unfold range2d.make
    rw [compute_id_of_lt (by exact hi0) (by exact hj0)]
    simp only [except_ok_bind]
    rw [hwrap, e2]
    rw [compute_id_of_lt (by exact hi1) (by exact hj0)]
    simp only [except_ok_bind]
    rw [check_precondition_true _ hii, check_precondition_true _ hi2,
      check_precondition_true _ hjj, check_precondition_true _ hj2]
    simp only [except_ok_bind, e1]
    rfl
  rw [hmk, Except.ok.injEq] at h
  subst h
  have hlast : (i0 + d) * s2 + j0 + s2 =
      (i0 * s2 + j0) + (w + 1) + (s2 - (w + 1)) + d * ((w + 1) + (s2 - (w + 1))) := by
    rw [ho]
    have e3 : w + 1 + o - (w + 1) = o := by omega
    rw [e3]
    ring
  have hfuel : (w + 1) + d * (w + 1) ≤ (i0 + d) * s2 + j0 + s2 + 1 := by
    have hs2 : w + 1 ≤ s2 := by omega
    calc w + 1 + d * (w + 1) = (d + 1) * (w + 1) := by ring
      _ ≤ (d + 1) * s2 := Nat.mul_le_mul_left _ hs2
      _ = d * s2 + s2 := by ring
      _ ≤ (i0 + d) * s2 + j0 + s2 + 1 := by
          have : d * s2 ≤ (i0 + d) * s2 := Nat.mul_le_mul_right _ (by omega)
          omega
  have hv := range2d.visit_eq
    ⟨i0 * s2 + j0, (i0 + d) * s2 + j0 + s2, w + 1, s2 - (w + 1)⟩
    ((i0 + d) * s2 + j0 + s2 + 1) d (w + 1) (i0 * s2 + j0)
    (Nat.succ_pos w) (Nat.succ_pos w) le_rfl hlast hfuel
  have helems : (⟨i0 * s2 + j0, (i0 + d) * s2 + j0 + s2, w + 1,
      s2 - (w + 1)⟩ : range2d).elems =
      List.range' (i0 * s2 + j0) (w + 1) ++
        rowsList (i0 * s2 + j0 + (w + 1) + (s2 - (w + 1))) (w + 1)
          ((w + 1) + (s2 - (w + 1))) d := by
    unfold range2d.elems
    exact hv
  rw [helems]
  have hb : (w + 1) + (s2 - (w + 1)) = s2 := by omega
  constructor
  · refine List.Pairwise.imp (fun hab => Nat.ne_of_lt hab) ?_
    rw [hb]
    exact row_rows_pairwise (by omega) (by omega)
  · intro x hx
    rcases List.mem_append.mp hx with hx | hx
    · have hx' := (List.mem_range'_1).mp hx
      refine ⟨i0, j0 + (x - (i0 * s2 + j0)), by omega, by omega, by omega, by omega, by omega⟩
    · rw [hb] at hx
      obtain ⟨k, hk, hy1, hy2⟩ := mem_rowsList.mp hx
      have hrow : i0 * s2 + j0 + (w + 1) + (s2 - (w + 1)) + k * s2 =
          (i0 + 1 + k) * s2 + j0 := by
        have hexp : (i0 + 1 + k) * s2 = i0 * s2 + s2 + k * s2 := by ring
        omega
      rw [hrow] at hy1 hy2
      have hexp : (i0 + 1 + k) * s2 = i0 * s2 + s2 + k * s2 := by ring
      refine ⟨i0 + 1 + k, j0 + (x - ((i0 + 1 + k) * s2 + j0)),
        by omega, by omega, by omega, by omega, by omega⟩

theorem of_grid_grid (g : structured_grid) : (finite_volume.of_grid g).grid = g := rfl

theorem of_grid_inverse_volumes (g : structured_grid) :
    (finite_volume.of_grid g).inverse_volumes = fun c => 1 / cell_volume g c := rfl

/-- `compute_rhs` unfolded on a successful topology. -/
theorem compute_rhs_eq_ok {gp : gas_props} {fs : euler.state} {fv : finite_volume}
    {t : ℝ} {U : Nat → euler.state} {tp : face_topology_data}
    (h : face_topology fv.grid.nvi fv.grid.nvj = Except.ok tp) :
    compute_rhs gp fs fv t U = Except.ok (fun c => fv.inverse_volumes c •
      accum_faces
        (fun f c => -euler.compute_freestream_flux gp fs (U c) (jface_area fv.grid f))
        tp.max_j
        (accum_faces (fun f c => euler.compute_wall_flux gp (U c) (jface_area fv.grid f))
          tp.min_j
          (accum_faces (fun f c => -euler.compute_flux gp (U c) (iface_area fv.grid f))
            tp.max_i
            (accum_faces (fun f c => euler.compute_flux gp (U c) (iface_area fv.grid f))
              tp.min_i
              (accum_jump gp (jface_area fv.grid) U tp.interior_j
                (accum_jump gp (iface_area fv.grid) U tp.interior_i (fun _ => 0)))))) c) := by
  unfold compute_rhs
  rw [h]
  rfl

/-- Claim C3: whenever `compute_rhs` succeeds (equivalently, its face
topology evaluates), the residual it returns is, per cell, the reciprocal
cell volume times the accumulated face contributions, in which each
interior i-face and j-face appears exactly once (their id lists have no
duplicates), subtracted at the face's `cell(0)` (left) neighbor and added
at its `cell(1)` (right) neighbor, together with the boundary terms. -/
theorem compute_rhs_assembly (gp : gas_props) (fs : euler.state) (g : structured_grid)
    (t : ℝ) (U : Nat → euler.state) (tp : face_topology_data)
    (h : face_topology g.nvi g.nvj = Except.ok tp) (hw : g.nvi ≤ wordSize) :
    compute_rhs gp fs (finite_volume.of_grid g) t U = Except.ok (fun c =>
      (1 / cell_volume g c) • (
        (tp.interior_i.map fun p =>
          (if c = p.2.2 then
            euler.compute_jump_flux gp (U p.2.1) (U p.2.2) (iface_area g p.1) else 0) -
          (if c = p.2.1 then
            euler.compute_jump_flux gp (U p.2.1) (U p.2.2) (iface_area g p.1) else 0)).sum +
        (tp.interior_j.map fun p =>
          (if c = p.2.2 then
            euler.compute_jump_flux gp (U p.2.1) (U p.2.2) (jface_area g p.1) else 0) -
          (if c = p.2.1 then
            euler.compute_jump_flux gp (U p.2.1) (U p.2.2) (jface_area g p.1) else 0)).sum +
        (tp.min_i.map fun p =>
          if c = p.2 then euler.compute_flux gp (U p.2) (iface_area g p.1) else 0).sum +
        (tp.max_i.map fun p =>
          if c = p.2 then -euler.compute_flux gp (U p.2) (iface_area g p.1) else 0).sum +
        (tp.min_j.map fun p =>
          if c = p.2 then euler.compute_wall_flux gp (U p.2) (jface_area g p.1) else 0).sum +
        (tp.max_j.map fun p =>
          if c = p.2 then
            -euler.compute_freestream_flux gp fs (U p.2) (jface_area g p.1) else 0).sum)) ∧
    (tp.interior_i.map fun p => p.1).Nodup ∧
    (tp.interior_j.map fun p => p.1).Nodup ∧
    (∀ p ∈ tp.interior_i,
      iface_handle.cell (g.nvi - 1, g.nvj - 1) (g.nvi, g.nvj - 1) p.1 0 = Except.ok p.2.1 ∧
      iface_handle.cell (g.nvi - 1, g.nvj - 1) (g.nvi, g.nvj - 1) p.1 1 = Except.ok p.2.2) ∧
    (∀ p ∈ tp.interior_j,
      jface_handle.cell (g.nvi - 1, g.nvj - 1) (g.nvi - 1, g.nvj) p.1 0 = Except.ok p.2.1 ∧
      jface_handle.cell (g.nvi - 1, g.nvj - 1) (g.nvi - 1, g.nvj) p.1 1 = Except.ok p.2.2) := by
  have h0 := h
  unfold face_topology at h
  obtain ⟨ii, hii, h⟩ := except_bind_ok_elim h
  obtain ⟨iI, hiI, h⟩ := except_bind_ok_elim h
  obtain ⟨jj, hjj, h⟩ := except_bind_ok_elim h
  obtain ⟨iJ, hiJ, h⟩ := except_bind_ok_elim h
  obtain ⟨mi, hmi, h⟩ := except_bind_ok_elim h
  obtain ⟨lmi, hlmi, h⟩ := except_bind_ok_elim h
  obtain ⟨xi, hxi, h⟩ := except_bind_ok_elim h
  obtain ⟨lxi, hlxi, h⟩ := except_bind_ok_elim h
  obtain ⟨mj, hmj, h⟩ := except_bind_ok_elim h
  obtain ⟨lmj, hlmj, h⟩ := except_bind_ok_elim h
  obtain ⟨xj, hxj, h⟩ := except_bind_ok_elim h
  obtain ⟨lxj, hlxj, h⟩ := except_bind_ok_elim h
  have htp : tp = ⟨iI, iJ, lmi, lxi, lmj, lxj⟩ := by
    have hp : (pure (⟨iI, iJ, lmi, lxi, lmj, lxj⟩ : face_topology_data) :
        Except String face_topology_data) = Except.ok ⟨iI, iJ, lmi, lxi, lmj, lxj⟩ := rfl
    rw [hp, Except.ok.injEq] at h
    exact h.symm
  subst htp
  refine ⟨?_, ?_, ?_, ?_, ?_⟩
  · have hok := @compute_rhs_eq_ok gp fs (finite_volume.of_grid g) t U _ h0
    rw [hok, Except.ok.injEq]
    funext c
    have hiv : (finite_volume.of_grid g).inverse_volumes c = 1 / cell_volume g c := rfl
    rw [hiv]
    congr 1
    rw [accum_faces_apply, accum_faces_apply, accum_faces_apply, accum_faces_apply,
      accum_jump_apply, accum_jump_apply]
    simp only [zero_add]
    rfl
  · unfold interior_ifaces_range at hii
    rw [forE_ok_map_fst (fun p => p.1)
      (fun x y hxy => (triple_body_inv hxy).1) hiI]
    exact ((range2d.make_ok_elems hii hw).1)
  · unfold interior_jfaces_range at hjj
    rw [forE_ok_map_fst (fun p => p.1)
      (fun x y hxy => (triple_body_inv hxy).1) hiJ]
    exact ((range2d.make_ok_elems hjj (by simp only; omega)).1)
  · intro p hp
    obtain ⟨x, hx, hfx⟩ := forE_ok_mem hiI p hp
    obtain ⟨h1, h2, h3⟩ := triple_body_inv hfx
    rw [← h1] at h2 h3
    exact ⟨h2, h3⟩
  · intro p hp
    obtain ⟨x, hx, hfx⟩ := forE_ok_mem hiJ p hp
    obtain ⟨h1, h2, h3⟩ := triple_body_inv hfx
    rw [← h1] at h2 h3
    exact ⟨h2, h3⟩

theorem sum_map_neg {α β : Type} [AddCommGroup β] (l : List α) (F : α → β) :
    (l.map fun a => -F a).sum = -(l.map F).sum := by
  induction l with
  | nil => simp
  | cons a as ih =>
    rw [List.map_cons, List.sum_cons, List.map_cons, List.sum_cons, ih]
    abel

/-- Claim C4 (amended): for every face delivered by `max_jfaces()`,
`compute_rhs` accumulates `−compute_freestream_flux(q_L, area)` into the
residual entry of the face's left (lower-j) neighbor `cell(0)`; the face
has no right (higher-j) neighbor — `cell(1)` fails the cell-index range
check — and no other residual entry is touched by the loop. -/
theorem compute_rhs_max_j_left (gp : gas_props) (fs : euler.state) (g : structured_grid)
    (U : Nat → euler.state) (tp : face_topology_data)
    (h : face_topology g.nvi g.nvj = Except.ok tp)
    (hw1 : g.nvi ≤ wordSize) (hw2 : g.nvj ≤ wordSize) :
    (∀ p ∈ tp.max_j,
      jface_handle.cell (g.nvi - 1, g.nvj - 1) (g.nvi - 1, g.nvj) p.1 0 = Except.ok p.2 ∧
      jface_handle.cell (g.nvi - 1, g.nvj - 1) (g.nvi - 1, g.nvj) p.1 1 =
        Except.error "j-index is out of range.") ∧
    (∀ (R : Nat → euler.flux) (c : Nat),
      accum_faces
        (fun f c => -euler.compute_freestream_flux gp fs (U c) (jface_area g f))
        tp.max_j R c =
      R c - (tp.max_j.map fun p =>
        if c = p.2 then euler.compute_freestream_flux gp fs (U p.2) (jface_area g p.1)
        else 0).sum) := by
  unfold face_topology at h
  obtain ⟨ii, hii, h⟩ := except_bind_ok_elim h
  obtain ⟨iI, hiI, h⟩ := except_bind_ok_elim h
  obtain ⟨jj, hjj, h⟩ := except_bind_ok_elim h
  obtain ⟨iJ, hiJ, h⟩ := except_bind_ok_elim h
  obtain ⟨mi, hmi, h⟩ := except_bind_ok_elim h
  obtain ⟨lmi, hlmi, h⟩ := except_bind_ok_elim h
  obtain ⟨xi, hxi, h⟩ := except_bind_ok_elim h
  obtain ⟨lxi, hlxi, h⟩ := except_bind_ok_elim h
  obtain ⟨mj, hmj, h⟩ := except_bind_ok_elim h
  obtain ⟨lmj, hlmj, h⟩ := except_bind_ok_elim h
  obtain ⟨xj, hxj, h⟩ := except_bind_ok_elim h
  obtain ⟨lxj, hlxj, h⟩ := except_bind_ok_elim h
  have htp : tp = ⟨iI, iJ, lmi, lxi, lmj, lxj⟩ := by
    have hp : (pure (⟨iI, iJ, lmi, lxi, lmj, lxj⟩ : face_topology_data) :
        Except String face_topology_data) = Except.ok ⟨iI, iJ, lmi, lxi, lmj, lxj⟩ := rfl
    rw [hp, Except.ok.injEq] at h
    exact h.symm
  subst htp
  constructor
  · intro p hp
    obtain ⟨x, hx, hfx⟩ := forE_ok_mem hlxj p hp
    obtain ⟨h1, h2⟩ := pair_body_inv hfx
    unfold max_jfaces_range at hxj
    obtain ⟨_, hmem⟩ := range2d.make_ok_elems hxj (by simp only; omega)
    obtain ⟨a, b, ha0, ha1, hb0, hb1, hxab⟩ := hmem x hx
    dsimp only at ha0 ha1 hb0 hb1 hxab
    have hb : b = g.nvj - 1 := by omega
    subst hb
    subst hxab
    have hco : compute_coordinates (a * g.nvj + (g.nvj - 1)) (g.nvi - 1, g.nvj) =
        Except.ok (a, g.nvj - 1) :=
      compute_coordinates_of_row a (g.nvj - 1) (g.nvi - 1, g.nvj) ha1 (by dsimp only; omega)
    refine ⟨by rw [← h1] at h2; exact h2, ?_⟩
    rw [h1]
    rw [jface_cell_eq _ _ _ 1 (by omega) _ _ hco,
      wrap_n_one (by unfold wordSize at hw2 ⊢; omega)]
    exact compute_id_error_j (by dsimp only; omega) (by dsimp only; omega)
  · intro R c
    rw [accum_faces_apply, sub_eq_add_neg]
    congr 1
    have hfun : (fun (p : Nat × Nat) =>
        if c = p.2 then
          (fun f c => -euler.compute_freestream_flux gp fs (U c) (jface_area g f)) p.1 p.2
        else 0) =
        fun (p : Nat × Nat) =>
          -(if c = p.2 then euler.compute_freestream_flux gp fs (U p.2) (jface_area g p.1)
            else 0) := by
      funext p
      dsimp only
      split <;> simp
    rw [hfun, sum_map_neg]

/-- The face topology of a 3×3-vertex (2×2-cell) grid, as `face_topology 3 3`
evaluates it. -/
def tp33 : face_topology_data :=
  ⟨[(2, 0, 2), (3, 1, 3)], [(1, 0, 1), (4, 2, 3)], [(0, 0), (1, 1)],
    [(4, 2), (5, 3)], [(0, 0), (3, 2)], [(2, 1), (5, 3)]⟩

/-- A unit-spaced 3×3-vertex grid fixture. -/
def grid33 : structured_grid :=
  ⟨3, 3, [(0, 0), (0, 1), (0, 2), (1, 0), (1, 1), (1, 2), (2, 0), (2, 1), (2, 2)]⟩

/-- Witness for C3: on a concrete 3×3-vertex grid the face topology
evaluates and `compute_rhs` returns a residual of the assembled form. -/
theorem compute_rhs_assembly_witness :
    face_topology grid33.nvi grid33.nvj = Except.ok tp33 ∧
    ∃ R, compute_rhs ⟨1.4, 287.058⟩ ((1 : ℝ), 0, 0, 1) (finite_volume.of_grid grid33) 0
      (fun _ => ((1 : ℝ), 0, 0, 1)) = Except.ok R :=
  ⟨rfl, ⟨_, (compute_rhs_assembly ⟨1.4, 287.058⟩ ((1 : ℝ), 0, 0, 1) grid33 0
    (fun _ => ((1 : ℝ), 0, 0, 1)) tp33 rfl
    (by show (3 : Nat) ≤ wordSize; unfold wordSize; omega)).1⟩⟩

/-- Counterexample to C4 as stated: on a 3×3-vertex grid
(`size_cell = (2, 2)`, `size_jface = (2, 3)`), the max-j face with id 2
has no right (higher-j) neighbor — `cell(1)` fails the cell-index range
check — while `cell(0)` is the lower-j cell 1; and `face_topology`
records `(2, 1)`, i.e. `compute_rhs` accumulates that face into cell 1. -/
theorem max_jface_right_neighbor_missing :
    jface_handle.cell (2, 2) (2, 3) 2 1 = Except.error "j-index is out of range." ∧
    jface_handle.cell (2, 2) (2, 3) 2 0 = Except.ok 1 ∧
    face_topology 3 3 = Except.ok tp33 ∧
    tp33.max_j = [(2, 1), (5, 3)] :=
  ⟨rfl, rfl, rfl, rfl⟩

/-- Witness for C4 (amended) on the concrete 3×3-vertex grid: the max-j
face 5 accumulates into its left neighbor cell 3, whose right neighbor
lookup fails. -/
theorem compute_rhs_max_j_left_witness :
    jface_handle.cell (grid33.nvi - 1, grid33.nvj - 1) (grid33.nvi - 1, grid33.nvj) 5 0 =
      Except.ok 3 ∧
    jface_handle.cell (grid33.nvi - 1, grid33.nvj - 1) (grid33.nvi - 1, grid33.nvj) 5 1 =
      Except.error "j-index is out of range." := by
  have h := compute_rhs_max_j_left ⟨1.4, 287.058⟩ ((1 : ℝ), 0, 0, 1) grid33
    (fun _ => ((1 : ℝ), 0, 0, 1)) tp33 rfl
    (by show (3 : Nat) ≤ wordSize; unfold wordSize; omega)
    (by show (3 : Nat) ≤ wordSize; unfold wordSize; omega)
  have hm : ((5, 3) : Nat × Nat) ∈ tp33.max_j := by decide
  exact ⟨(h.1 (5, 3) hm).1, (h.1 (5, 3) hm).2⟩

/-- Claim C5 (spec-modelled): construction of the assembler fails with
`DegenerateCell` exactly when some cell has zero volume; it has no other
failure mode; and on success it yields the assembler over `g` with the
inverse volumes cached. -/
theorem finite_volume_make_degenerate (g : structured_grid) :
    (finite_volume.make g = Except.error "DegenerateCell" ↔
      ∃ c, c < num_cell g ∧ cell_volume g c = 0) ∧
    (∀ e, finite_volume.make g = Except.error e → e = "DegenerateCell") ∧
    ((∀ c, c < num_cell g → cell_volume g c ≠ 0) →
      finite_volume.make g = Except.ok (finite_volume.of_grid g)) := by
  unfold finite_volume.make
  by_cases h : ∃ c, c < num_cell g ∧ cell_volume g c = 0
  · rw [if_pos h]
    exact ⟨⟨fun _ => h, fun _ => rfl⟩, fun e he => by
      rw [Except.error.injEq] at he; exact he.symm, fun hall => absurd h (by
        push_neg
        intro c hc
        exact hall c hc)⟩
  · rw [if_neg h]
    refine ⟨⟨fun hcontra => by simp at hcontra, fun hex => absurd hex h⟩,
      fun e he => by simp at he, fun _ => rfl⟩

/-! ## Grid builders (grid_util.cpp) -/

/-- The vertex array built by the builders' nested
`for i < ni: for j < nj: vertices.push_back(f(i, j))` loop, starting at
row `i0` with `n` rows remaining. -/
def grid_points_from (f : Nat → Nat → ℝ × ℝ) : Nat → Nat → Nat → List (ℝ × ℝ)
  | _, 0, _ => []
  | i0, n + 1, nj => ((List.range nj).map (f i0)) ++ grid_points_from f (i0 + 1) n nj

/-- The full vertex array of the nested push loop. -/
def grid_points (f : Nat → Nat → ℝ × ℝ) (ni nj : Nat) : List (ℝ × ℝ) :=
  grid_points_from f 0 ni nj

theorem grid_points_from_length (f : Nat → Nat → ℝ × ℝ) :
    ∀ (n i0 nj : Nat), (grid_points_from f i0 n nj).length = n * nj := by
  intro n
  induction n with
  | zero => intro i0 nj; simp [grid_points_from]
  | succ n ih =>
    intro i0 nj
    rw [grid_points_from, List.length_append, List.length_map, List.length_range, ih]
    ring

theorem grid_points_length (f : Nat → Nat → ℝ × ℝ) (ni nj : Nat) :
    (grid_points f ni nj).length = ni * nj :=
  grid_points_from_length f ni 0 nj

theorem grid_points_from_getElem? (f : Nat → Nat → ℝ × ℝ) :
    ∀ (n i0 nj k j : Nat), k < n → j < nj →
      (grid_points_from f i0 n nj)[k * nj + j]? = some (f (i0 + k) j) := by
  intro n
  induction n with
  | zero => intro i0 nj k j hk; omega
  | succ n ih =>
    intro i0 nj k j hk hj
    rw [grid_points_from]
    cases k with
    | zero =>
      rw [Nat.zero_mul, Nat.zero_add]
      rw [List.getElem?_append_left (by rw [List.length_map, List.length_range]; exact hj)]
      rw [List.getElem?_map, List.getElem?_range hj]
      rfl
    | succ k =>
      have hidx : (k + 1) * nj + j = nj + (k * nj + j) := by ring
      rw [hidx]
      rw [List.getElem?_append_right (by rw [List.length_map, List.length_range]; omega)]
      rw [List.length_map, List.length_range]
      have hsub : nj + (k * nj + j) - nj = k * nj + j := by omega
      rw [hsub, ih (i0 + 1) nj k j (by omega) hj]
      have : i0 + 1 + k = i0 + (k + 1) := by omega
      rw [this]

theorem grid_points_getD (f : Nat → Nat → ℝ × ℝ) (ni nj i j : Nat)
    (hi : i < ni) (hj : j < nj) :
    (grid_points f ni nj).getD (i * nj + j) (0, 0) = f i j := by
  rw [List.getD_eq_getElem?_getD]
  unfold grid_points
  rw [grid_points_from_getElem? f ni 0 nj i j hi hj]
  rw [Nat.zero_add]
  rfl

/-- grid_util.cpp: `make_cartesian_grid(xrange, yrange, size)` — uniform
spacing `dx = (xmax − xmin)/(nx − 1)`, `dy` likewise, vertices pushed in
the nested loop, then the `structured_grid` constructor. -/
def make_cartesian_grid (xrange yrange : ℝ × ℝ) (size : Nat × Nat) :
    Except String structured_grid := do
  let _ ← check_precondition (2 ≤ size.1) "nx is too small."
  let _ ← check_precondition (2 ≤ size.2) "ny is too small."
  structured_grid.mk' size (grid_points
    (fun i j =>
      (xrange.1 + (i : ℝ) * ((xrange.2 - xrange.1) / ((size.1 - 1 : Nat) : ℝ)),
       yrange.1 + (j : ℝ) * ((yrange.2 - yrange.1) / ((size.2 - 1 : Nat) : ℝ))))
    size.1 size.2)

/-- grid_util.cpp: the elliptic-coordinate map
`x = a·cosh μ·cos ν`, `y = a·sinh μ·sin ν`. -/
def ellipt_point (a mu nu : ℝ) : ℝ × ℝ :=
  (a * Real.cosh mu * Real.cos nu, a * Real.sinh mu * Real.sin nu)

/-- grid_util.cpp: `make_elliptic_grid(eccentricity, mu_range, nu_range,
size)`. -/
def make_elliptic_grid (eccentricity : ℝ) (mu_range nu_range : ℝ × ℝ)
    (size : Nat × Nat) : Except String structured_grid := do
  let _ ← check_precondition (0 ≤ eccentricity) "eccentricity must be positive."
  let _ ← check_precondition (2 ≤ size.1) "nx is too small."
  let _ ← check_precondition (2 ≤ size.2) "ny is too small."
  structured_grid.mk' size (grid_points
    (fun i j => ellipt_point eccentricity
      (mu_range.1 + (i : ℝ) * ((mu_range.2 - mu_range.1) / ((size.1 - 1 : Nat) : ℝ)))
      (nu_range.1 + (j : ℝ) * ((nu_range.2 - nu_range.1) / ((size.2 - 1 : Nat) : ℝ))))
    size.1 size.2)

/-- `std::acosh`, modelled by its closed form `log(x + √(x² − 1))`. -/
def acosh (x : ℝ) : ℝ := Real.log (x + Real.sqrt (x ^ 2 - 1))

theorem cosh_acosh {x : ℝ} (hx : 1 ≤ x) : Real.cosh (acosh x) = x := by
  have hnn : (0 : ℝ) ≤ x ^ 2 - 1 := by nlinarith
  have hs2 : Real.sqrt (x ^ 2 - 1) ^ 2 = x ^ 2 - 1 := Real.sq_sqrt hnn
  have hs0 : 0 ≤ Real.sqrt (x ^ 2 - 1) := Real.sqrt_nonneg _
  have hy : 0 < x + Real.sqrt (x ^ 2 - 1) := by linarith
  have hmul : (x + Real.sqrt (x ^ 2 - 1)) * (x - Real.sqrt (x ^ 2 - 1)) = 1 := by
    have hexp : (x + Real.sqrt (x ^ 2 - 1)) * (x - Real.sqrt (x ^ 2 - 1)) =
        x ^ 2 - Real.sqrt (x ^ 2 - 1) ^ 2 := by ring
    rw [hexp, hs2]
    ring
  have hinv : (x + Real.sqrt (x ^ 2 - 1))⁻¹ = x - Real.sqrt (x ^ 2 - 1) :=
    inv_eq_of_mul_eq_one_right hmul
  unfold acosh
  rw [Real.cosh_eq, Real.exp_log hy, Real.exp_neg, Real.exp_log hy, hinv]
  ring

theorem sinh_acosh {x : ℝ} (hx : 1 ≤ x) :
    Real.sinh (acosh x) = Real.sqrt (x ^ 2 - 1) := by
  have hnn : (0 : ℝ) ≤ x ^ 2 - 1 := by nlinarith
  have hs2 : Real.sqrt (x ^ 2 - 1) ^ 2 = x ^ 2 - 1 := Real.sq_sqrt hnn
  have hs0 : 0 ≤ Real.sqrt (x ^ 2 - 1) := Real.sqrt_nonneg _
  have hy : 0 < x + Real.sqrt (x ^ 2 - 1) := by linarith
  have hmul : (x + Real.sqrt (x ^ 2 - 1)) * (x - Real.sqrt (x ^ 2 - 1)) = 1 := by
    have hexp : (x + Real.sqrt (x ^ 2 - 1)) * (x - Real.sqrt (x ^ 2 - 1)) =
        x ^ 2 - Real.sqrt (x ^ 2 - 1) ^ 2 := by ring
    rw [hexp, hs2]
    ring
  have hinv : (x + Real.sqrt (x ^ 2 - 1))⁻¹ = x - Real.sqrt (x ^ 2 - 1) :=
    inv_eq_of_mul_eq_one_right hmul
  unfold acosh
  rw [Real.sinh_eq, Real.exp_log hy, Real.exp_neg, Real.exp_log hy, hinv]
  ring

theorem acosh_pos {x : ℝ} (hx : 1 < x) : 0 < acosh x := by
  unfold acosh
  apply Real.log_pos
  have := Real.sqrt_nonneg (x ^ 2 - 1)
  linarith

/-- grid_util.cpp: `mu_max = acosh(beta − 1)` with `beta = r²/(l·ρ)`. -/
def forebody_mu_max (l r rho : ℝ) : ℝ := acosh (r * r / (l * rho) - 1)

/-- grid_util.cpp: `a = l/(cosh μmax − 1)`. -/
def forebody_a (l r rho : ℝ) : ℝ := l / (Real.cosh (forebody_mu_max l r rho) - 1)

/-- grid_util.cpp: `b = r/sinh μmax`. -/
def forebody_b (l r rho : ℝ) : ℝ := r / Real.sinh (forebody_mu_max l r rho)

/-- grid_util.cpp: `make_hyperbolic_forebody_grid(length, base_radius,
nose_radius, boundary_angle, size)` — the five parameter checks, the
`beta ≥ 2` check, the derived elliptic parameters, the elliptic grid, and
the final translation putting the nose tip at the origin. -/
def make_hyperbolic_forebody_grid (length base_radius nose_radius boundary_angle : ℝ)
    (size : Nat × Nat) : Except String structured_grid := do
  let _ ← check_precondition (0 < length) "Body length must be >0."
  let _ ← check_precondition (0 < base_radius) "Base radius must be >0."
  let _ ← check_precondition (0 < nose_radius) "Nose radius must be >0."
  let _ ← check_precondition (0 < boundary_angle) "Boundary angle must be >0."
  let _ ← check_precondition (boundary_angle < Real.pi / 2) "Boundary angle must be < pi/2."
  let _ ← check_precondition (2 ≤ base_radius * base_radius / (length * nose_radius))
    "Invalid parameters: R^2/(L*rho) must be 2.0 or greater."
  let grid ← make_elliptic_grid
    (Real.sqrt (forebody_a length base_radius nose_radius * forebody_a length base_radius nose_radius +
      forebody_b length base_radius nose_radius * forebody_b length base_radius nose_radius))
    (0, forebody_mu_max length base_radius nose_radius)
    (Real.arctan (forebody_b length base_radius nose_radius / forebody_a length base_radius nose_radius),
     Real.arctan (Real.tan boundary_angle *
       Real.tanh (forebody_mu_max length base_radius nose_radius)))
    size
  pure (grid.translate ((-1 : ℝ) • grid.vertex 0 0))

/-! ## Volume positivity for built grids -/

theorem structured_grid.mk'_ok {size : Nat × Nat} {vertices : List (ℝ × ℝ)}
    (h1 : 2 ≤ size.1) (h2 : 2 ≤ size.2) (h3 : vertices.length = size.1 * size.2) :
    structured_grid.mk' size vertices = Except.ok ⟨size.1, size.2, vertices⟩ := by
  unfold structured_grid.mk'
  rw [check_precondition_true _ h1, check_precondition_true _ h2,
    check_precondition_true _ h3]
  rfl

theorem make_cartesian_grid_ok (xr yr : ℝ × ℝ) (size : Nat × Nat)
    (h1 : 2 ≤ size.1) (h2 : 2 ≤ size.2) :
    make_cartesian_grid xr yr size = Except.ok ⟨size.1, size.2,
      grid_points (fun i j =>
        (xr.1 + (i : ℝ) * ((xr.2 - xr.1) / ((size.1 - 1 : Nat) : ℝ)),
         yr.1 + (j : ℝ) * ((yr.2 - yr.1) / ((size.2 - 1 : Nat) : ℝ))))
        size.1 size.2⟩ := by
  unfold make_cartesian_grid
  rw [check_precondition_true _ h1, check_precondition_true _ h2]
  simp only [except_ok_bind]
  exact structured_grid.mk'_ok h1 h2 (grid_points_length _ _ _)

theorem make_elliptic_grid_ok (a : ℝ) (mur nur : ℝ × ℝ) (size : Nat × Nat)
    (ha : 0 ≤ a) (h1 : 2 ≤ size.1) (h2 : 2 ≤ size.2) :
    make_elliptic_grid a mur nur size = Except.ok ⟨size.1, size.2,
      grid_points (fun i j => ellipt_point a
        (mur.1 + (i : ℝ) * ((mur.2 - mur.1) / ((size.1 - 1 : Nat) : ℝ)))
        (nur.1 + (j : ℝ) * ((nur.2 - nur.1) / ((size.2 - 1 : Nat) : ℝ))))
        size.1 size.2⟩ := by
  unfold make_elliptic_grid
  rw [check_precondition_true _ ha, check_precondition_true _ h1,
    check_precondition_true _ h2]
  simp only [except_ok_bind]
  exact structured_grid.mk'_ok h1 h2 (grid_points_length _ _ _)

theorem built_vertex (f : Nat → Nat → ℝ × ℝ) (ni nj i j : Nat)
    (hi : i < ni) (hj : j < nj) :
    structured_grid.vertex ⟨ni, nj, grid_points f ni nj⟩ i j = f i j := by
  unfold structured_grid.vertex
  exact grid_points_getD f ni nj i j hi hj

/-- The cached volume of the cell at slice coordinates `(i, j)` of a grid
built from the vertex map `f`. -/
theorem built_cell_volume (f : Nat → Nat → ℝ × ℝ) (nvi nvj i j : Nat)
    (hi : i < nvi - 1) (hj : j < nvj - 1) :
    cell_volume ⟨nvi, nvj, grid_points f nvi nvj⟩ (i * (nvj - 1) + j) =
      0.5 * (cross2d (f (i + 1) j - f i j) (f i (j + 1) - f i j) +
             cross2d (f i (j + 1) - f (i + 1) (j + 1)) (f (i + 1) j - f (i + 1) (j + 1))) := by
  have hnj : 0 < nvj - 1 := by omega
  obtain ⟨hdiv, hsub⟩ := row_major_div_sub i j (nvj - 1) hnj hj
  unfold cell_volume
  dsimp only
  rw [hdiv]
  have hsub' : i * (nvj - 1) + j - i * (nvj - 1) = j := by omega
  rw [hsub']
  rw [built_vertex f nvi nvj i j (by omega) (by omega),
    built_vertex f nvi nvj (i + 1) j (by omega) (by omega),
    built_vertex f nvi nvj (i + 1) (j + 1) (by omega) (by omega),
    built_vertex f nvi nvj i (j + 1) (by omega) (by omega)]

/-- Decomposition of a cell id into slice coordinates. -/
theorem cell_id_decomp {m n c : Nat} (hn : 0 < n) (hc : c < m * n) :
    ∃ i j, i < m ∧ j < n ∧ c = i * n + j := by
  refine ⟨c / n, c - c / n * n, ?_, ?_, ?_⟩
  · apply Nat.div_lt_of_lt_mul
    rwa [Nat.mul_comm] at hc
  · have := Nat.mod_lt c hn
    have h2 := Nat.div_add_mod c n
    rw [Nat.mul_comm] at h2
    omega
  · have h2 := Nat.div_add_mod c n
    rw [Nat.mul_comm] at h2
    have := Nat.div_mul_le_self c n
    omega

/-- A cell of the elliptic-coordinate map with `a > 0`, increasing
`0 ≤ μ0 < μ1` and increasing `0 < ν0 < ν1 < π/2` has positive volume. -/
theorem elliptic_cell_pos (a mu0 mu1 nu0 nu1 : ℝ) (ha : 0 < a)
    (hm0 : 0 ≤ mu0) (hm : mu0 < mu1)
    (hn0 : 0 < nu0) (hn : nu0 < nu1) (hn1 : nu1 < Real.pi / 2) :
    0 < 0.5 * (cross2d (ellipt_point a mu1 nu0 - ellipt_point a mu0 nu0)
                 (ellipt_point a mu0 nu1 - ellipt_point a mu0 nu0) +
               cross2d (ellipt_point a mu0 nu1 - ellipt_point a mu1 nu1)
                 (ellipt_point a mu1 nu0 - ellipt_point a mu1 nu1)) := by
  have hpi : 0 < Real.pi := Real.pi_pos
  have hK : Real.cosh mu0 < Real.cosh mu1 := by
    rw [Real.cosh_lt_cosh, abs_of_nonneg hm0, abs_of_nonneg (by linarith)]
    exact hm
  have hH : Real.sinh mu0 < Real.sinh mu1 := Real.sinh_lt_sinh.mpr hm
  have hsin : Real.sin nu0 < Real.sin nu1 := by
    apply Real.strictMonoOn_sin ⟨by linarith, by linarith⟩ ⟨by linarith, by linarith⟩ hn
  have hcos : Real.cos nu1 < Real.cos nu0 := by
    apply Real.strictAntiOn_cos ⟨by linarith, by linarith⟩ ⟨by linarith, by linarith⟩ hn
  have hc0 : 0 < Real.cos nu0 := Real.cos_pos_of_mem_Ioo ⟨by linarith, by linarith⟩
  have hc1 : 0 < Real.cos nu1 := Real.cos_pos_of_mem_Ioo ⟨by linarith, by linarith⟩
  have hs0 : 0 < Real.sin nu0 := Real.sin_pos_of_pos_of_lt_pi hn0 (by linarith)
  have hs1 : 0 < Real.sin nu1 := Real.sin_pos_of_pos_of_lt_pi (by linarith) (by linarith)
  have hK0 : 0 < Real.cosh mu0 := Real.cosh_pos mu0
  have hK1 : 0 < Real.cosh mu1 := Real.cosh_pos mu1
  have hH0 : 0 ≤ Real.sinh mu0 := Real.sinh_nonneg_iff.mpr hm0
  have hH1 : 0 < Real.sinh mu1 := Real.sinh_pos_iff.mpr (by linarith)
  have key : 0.5 * (cross2d (ellipt_point a mu1 nu0 - ellipt_point a mu0 nu0)
                 (ellipt_point a mu0 nu1 - ellipt_point a mu0 nu0) +
               cross2d (ellipt_point a mu0 nu1 - ellipt_point a mu1 nu1)
                 (ellipt_point a mu1 nu0 - ellipt_point a mu1 nu1)) =
      0.5 * a ^ 2 *
        ((Real.cosh mu1 - Real.cosh mu0) * (Real.sin nu1 - Real.sin nu0) *
            (Real.cos nu0 * Real.sinh mu0 + Real.cos nu1 * Real.sinh mu1) +
          (Real.sinh mu1 - Real.sinh mu0) * (Real.cos nu0 - Real.cos nu1) *
            (Real.sin nu0 * Real.cosh mu0 + Real.sin nu1 * Real.cosh mu1)) := by
    unfold ellipt_point cross2d
    dsimp only [Prod.fst, Prod.snd, Prod.mk_sub_mk]
    ring
  rw [key]
  have hT1 : 0 < (Real.cosh mu1 - Real.cosh mu0) * (Real.sin nu1 - Real.sin nu0) *
      (Real.cos nu0 * Real.sinh mu0 + Real.cos nu1 * Real.sinh mu1) := by
    apply mul_pos (mul_pos (by linarith) (by linarith))
    have h1 : 0 ≤ Real.cos nu0 * Real.sinh mu0 := mul_nonneg hc0.le hH0
    have h2 : 0 < Real.cos nu1 * Real.sinh mu1 := mul_pos hc1 hH1
    linarith
  have hT2 : 0 < (Real.sinh mu1 - Real.sinh mu0) * (Real.cos nu0 - Real.cos nu1) *
      (Real.sin nu0 * Real.cosh mu0 + Real.sin nu1 * Real.cosh mu1) := by
    apply mul_pos (mul_pos (by linarith) (by linarith))
    have h1 : 0 < Real.sin nu0 * Real.cosh mu0 := mul_pos hs0 hK0
    have h2 : 0 < Real.sin nu1 * Real.cosh mu1 := mul_pos hs1 hK1
    linarith
  have ha2 : 0 < (0.5 : ℝ) * a ^ 2 := by positivity
  nlinarith

theorem make_cartesian_grid_volumes_pos (xr yr : ℝ × ℝ) (size : Nat × Nat)
    (hx : xr.1 < xr.2) (hy : yr.1 < yr.2) (h1 : 2 ≤ size.1) (h2 : 2 ≤ size.2) :
    ∃ g, make_cartesian_grid xr yr size = Except.ok g ∧
      ∀ c < num_cell g, 0 < cell_volume g c := by
  refine ⟨_, make_cartesian_grid_ok xr yr size h1 h2, ?_⟩
  intro c hc
  have hc' : c < (size.1 - 1) * (size.2 - 1) := hc
  obtain ⟨i, j, hi, hj, rfl⟩ := cell_id_decomp (by omega) hc'
  rw [built_cell_volume _ size.1 size.2 i j hi hj]
  have hdx : 0 < (xr.2 - xr.1) / ((size.1 - 1 : Nat) : ℝ) :=
    div_pos (by linarith) (Nat.cast_pos.mpr (by omega))
  have hdy : 0 < (yr.2 - yr.1) / ((size.2 - 1 : Nat) : ℝ) :=
    div_pos (by linarith) (Nat.cast_pos.mpr (by omega))
  have key : 0.5 * (cross2d
        ((xr.1 + ((i + 1 : Nat) : ℝ) * ((xr.2 - xr.1) / ((size.1 - 1 : Nat) : ℝ)),
          yr.1 + (j : ℝ) * ((yr.2 - yr.1) / ((size.2 - 1 : Nat) : ℝ))) -
         (xr.1 + (i : ℝ) * ((xr.2 - xr.1) / ((size.1 - 1 : Nat) : ℝ)),
          yr.1 + (j : ℝ) * ((yr.2 - yr.1) / ((size.2 - 1 : Nat) : ℝ))))
        ((xr.1 + (i : ℝ) * ((xr.2 - xr.1) / ((size.1 - 1 : Nat) : ℝ)),
          yr.1 + ((j + 1 : Nat) : ℝ) * ((yr.2 - yr.1) / ((size.2 - 1 : Nat) : ℝ))) -
         (xr.1 + (i : ℝ) * ((xr.2 - xr.1) / ((size.1 - 1 : Nat) : ℝ)),
          yr.1 + (j : ℝ) * ((yr.2 - yr.1) / ((size.2 - 1 : Nat) : ℝ)))) +
      cross2d
        ((xr.1 + (i : ℝ) * ((xr.2 - xr.1) / ((size.1 - 1 : Nat) : ℝ)),
          yr.1 + ((j + 1 : Nat) : ℝ) * ((yr.2 - yr.1) / ((size.2 - 1 : Nat) : ℝ))) -
         (xr.1 + ((i + 1 : Nat) : ℝ) * ((xr.2 - xr.1) / ((size.1 - 1 : Nat) : ℝ)),
          yr.1 + ((j + 1 : Nat) : ℝ) * ((yr.2 - yr.1) / ((size.2 - 1 : Nat) : ℝ))))
        ((xr.1 + ((i + 1 : Nat) : ℝ) * ((xr.2 - xr.1) / ((size.1 - 1 : Nat) : ℝ)),
          yr.1 + (j : ℝ) * ((yr.2 - yr.1) / ((size.2 - 1 : Nat) : ℝ))) -
         (xr.1 + ((i + 1 : Nat) : ℝ) * ((xr.2 - xr.1) / ((size.1 - 1 : Nat) : ℝ)),
          yr.1 + ((j + 1 : Nat) : ℝ) * ((yr.2 - yr.1) / ((size.2 - 1 : Nat) : ℝ))))) =
      ((xr.2 - xr.1) / ((size.1 - 1 : Nat) : ℝ)) *
        ((yr.2 - yr.1) / ((size.2 - 1 : Nat) : ℝ)) := by
    unfold cross2d
    dsimp only [Prod.fst, Prod.snd, Prod.mk_sub_mk]
    push_cast
    ring
  rw [key]
  exact mul_pos hdx hdy

theorem make_elliptic_grid_volumes_pos (a : ℝ) (mur nur : ℝ × ℝ) (size : Nat × Nat)
    (ha : 0 < a) (hm0 : 0 ≤ mur.1) (hm : mur.1 < mur.2)
    (hn0 : 0 < nur.1) (hn : nur.1 < nur.2) (hn2 : nur.2 < Real.pi / 2)
    (h1 : 2 ≤ size.1) (h2 : 2 ≤ size.2) :
    ∃ g, make_elliptic_grid a mur nur size = Except.ok g ∧
      g.nvi = size.1 ∧ g.nvj = size.2 ∧ g.vertices.length = size.1 * size.2 ∧
      ∀ c < num_cell g, 0 < cell_volume g c := by
  refine ⟨_, make_elliptic_grid_ok a mur nur size ha.le h1 h2, rfl, rfl,
    grid_points_length _ _ _, ?_⟩
  intro c hc
  have hc' : c < (size.1 - 1) * (size.2 - 1) := hc
  obtain ⟨i, j, hi, hj, rfl⟩ := cell_id_decomp (by omega) hc'
  rw [built_cell_volume _ size.1 size.2 i j hi hj]
  have hdmu : 0 < (mur.2 - mur.1) / ((size.1 - 1 : Nat) : ℝ) :=
    div_pos (by linarith) (Nat.cast_pos.mpr (by omega))
  have hdnu : 0 < (nur.2 - nur.1) / ((size.2 - 1 : Nat) : ℝ) :=
    div_pos (by linarith) (Nat.cast_pos.mpr (by omega))
  have hcast1 : ((i + 1 : Nat) : ℝ) = (i : ℝ) + 1 := by push_cast; ring
  have hcast2 : ((j + 1 : Nat) : ℝ) = (j : ℝ) + 1 := by push_cast; ring
  have hnu_top : nur.1 + ((j + 1 : Nat) : ℝ) * ((nur.2 - nur.1) / ((size.2 - 1 : Nat) : ℝ)) ≤
      nur.2 := by
    have hcle : ((j + 1 : Nat) : ℝ) ≤ ((size.2 - 1 : Nat) : ℝ) :=
      Nat.cast_le.mpr (by omega)
    have hfull : ((size.2 - 1 : Nat) : ℝ) * ((nur.2 - nur.1) / ((size.2 - 1 : Nat) : ℝ)) =
        nur.2 - nur.1 :=
      mul_div_cancel₀ _ (ne_of_gt (Nat.cast_pos.mpr (by omega)))
    have hstep : ((j + 1 : Nat) : ℝ) * ((nur.2 - nur.1) / ((size.2 - 1 : Nat) : ℝ)) ≤
        ((size.2 - 1 : Nat) : ℝ) * ((nur.2 - nur.1) / ((size.2 - 1 : Nat) : ℝ)) :=
      mul_le_mul_of_nonneg_right hcle hdnu.le
    linarith [hstep, hfull.le, hfull.ge]
  apply elliptic_cell_pos a _ _ _ _ ha
  · exact add_nonneg hm0 (mul_nonneg (Nat.cast_nonneg i) hdmu.le)
  · rw [hcast1]
    nlinarith [hdmu]
  · have : 0 ≤ (j : ℝ) * ((nur.2 - nur.1) / ((size.2 - 1 : Nat) : ℝ)) :=
      mul_nonneg (Nat.cast_nonneg j) hdnu.le
    linarith
  · rw [hcast2]
    nlinarith [hdnu]
  · linarith [hnu_top]

/-- Translation shifts an in-range vertex by the offset. -/
theorem vertex_translate (g : structured_grid) (d : ℝ × ℝ) (i j : Nat)
    (h : i * g.nvj + j < g.vertices.length) :
    (g.translate d).vertex i j = g.vertex i j + d := by
  unfold structured_grid.translate structured_grid.vertex
  dsimp only
  rw [List.getD_eq_getElem?_getD, List.getElem?_map, List.getElem?_eq_getElem h,
    List.getD_eq_getElem?_getD, List.getElem?_eq_getElem h]
  rfl

/-- Cached cell volumes are invariant under translation (the volume formula
uses only vertex differences). -/
theorem cell_volume_translate (g : structured_grid) (d : ℝ × ℝ) (c : Nat)
    (hlen : g.vertices.length = g.nvi * g.nvj)
    (h2i : 2 ≤ g.nvi) (h2j : 2 ≤ g.nvj) (hc : c < num_cell g) :
    cell_volume (g.translate d) c = cell_volume g c := by
  have hnj : 0 < g.nvj - 1 := by omega
  have hc' : c < (g.nvi - 1) * (g.nvj - 1) := hc
  obtain ⟨i, j, hi, hj, rfl⟩ := cell_id_decomp hnj hc'
  have hvt : ∀ a b, a < g.nvi → b < g.nvj →
      (g.translate d).vertex a b = g.vertex a b + d := by
    intro a b ha hb
    apply vertex_translate
    rw [hlen]
    calc a * g.nvj + b < a * g.nvj + g.nvj := by omega
      _ = (a + 1) * g.nvj := by ring
      _ ≤ g.nvi * g.nvj := Nat.mul_le_mul_right _ (by omega)
  obtain ⟨hdiv, _⟩ := row_major_div_sub i j (g.nvj - 1) hnj hj
  unfold cell_volume
  dsimp only
  have hTnvj : (g.translate d).nvj = g.nvj := rfl
  rw [hTnvj, hdiv]
  have hsub' : i * (g.nvj - 1) + j - i * (g.nvj - 1) = j := by omega
  rw [hsub']
  rw [hvt i j (by omega) (by omega), hvt (i + 1) j (by omega) (by omega),
    hvt (i + 1) (j + 1) (by omega) (by omega), hvt i (j + 1) (by omega) (by omega)]
  have hcancel : ∀ v w : ℝ × ℝ, (v + d) - (w + d) = v - w := by
    intro v w
    rw [Prod.ext_iff]
    constructor <;> dsimp <;> ring
  simp only [hcancel]

theorem make_hyperbolic_forebody_grid_volumes_pos
    (l r rho θ : ℝ) (size : Nat × Nat)
    (hl : 0 < l) (hr : 0 < r) (hrho : 0 < rho) (hθ0 : 0 < θ) (hθ1 : θ < Real.pi / 2)
    (hbeta : 2 < r * r / (l * rho))
    (hnu : forebody_b l r rho / forebody_a l r rho <
      Real.tan θ * Real.tanh (forebody_mu_max l r rho))
    (h1 : 2 ≤ size.1) (h2 : 2 ≤ size.2) :
    ∃ g, make_hyperbolic_forebody_grid l r rho θ size = Except.ok g ∧
      ∀ c < num_cell g, 0 < cell_volume g c := by
  have hb1 : (1 : ℝ) < r * r / (l * rho) - 1 := by linarith
  have hmu : 0 < forebody_mu_max l r rho := acosh_pos hb1
  have hcosh : Real.cosh (forebody_mu_max l r rho) = r * r / (l * rho) - 1 :=
    cosh_acosh (by linarith)
  have hcosh1 : 1 < Real.cosh (forebody_mu_max l r rho) := by rw [hcosh]; linarith
  have hA : 0 < forebody_a l r rho := div_pos hl (by linarith)
  have hsinh : 0 < Real.sinh (forebody_mu_max l r rho) := Real.sinh_pos_iff.mpr hmu
  have hB : 0 < forebody_b l r rho := div_pos hr hsinh
  have hC : 0 < Real.sqrt (forebody_a l r rho * forebody_a l r rho +
      forebody_b l r rho * forebody_b l r rho) :=
    Real.sqrt_pos.mpr (by nlinarith)
  have hvmin : 0 < Real.arctan (forebody_b l r rho / forebody_a l r rho) := by
    rw [← Real.arctan_zero]
    exact Real.arctan_strictMono (div_pos hB hA)
  have hvlt : Real.arctan (forebody_b l r rho / forebody_a l r rho) <
      Real.arctan (Real.tan θ * Real.tanh (forebody_mu_max l r rho)) :=
    Real.arctan_strictMono hnu
  have hvmax : Real.arctan (Real.tan θ * Real.tanh (forebody_mu_max l r rho)) <
      Real.pi / 2 := Real.arctan_lt_pi_div_two _
  obtain ⟨g0, hg0, hnvi, hnvj, hlen, hpos⟩ := make_elliptic_grid_volumes_pos
    (Real.sqrt (forebody_a l r rho * forebody_a l r rho +
      forebody_b l r rho * forebody_b l r rho))
    (0, forebody_mu_max l r rho)
    (Real.arctan (forebody_b l r rho / forebody_a l r rho),
     Real.arctan (Real.tan θ * Real.tanh (forebody_mu_max l r rho)))
    size hC le_rfl hmu hvmin hvlt hvmax h1 h2
  unfold make_hyperbolic_forebody_grid
  rw [check_precondition_true _ hl, check_precondition_true _ hr,
    check_precondition_true _ hrho, check_precondition_true _ hθ0,
    check_precondition_true _ hθ1, check_precondition_true _ (le_of_lt hbeta)]
  simp only [except_ok_bind]
  rw [hg0]
  simp only [except_ok_bind]
  refine ⟨_, rfl, ?_⟩
  intro c hc
  have hc0 : c < num_cell g0 := hc
  rw [cell_volume_translate g0 _ c (by rw [hlen, hnvi, hnvj])
    (by rw [hnvi]; exact h1) (by rw [hnvj]; exact h2) hc0]
  exact hpos c hc0

/-- Claim C8 (amended): every cell of a grid returned by
`make_cartesian_grid`, `make_elliptic_grid` or
`make_hyperbolic_forebody_grid` has strictly positive volume, provided the
parameters are nondegenerate and oriented: strictly increasing coordinate
ranges for the cartesian builder; `a > 0`, `0 ≤ μmin < μmax` and
`0 < νmin < νmax < π/2` for the elliptic builder; and `β = R²/(L·ρ)`
strictly above 2 with the boundary angle large enough that `νmin < νmax`
for the forebody builder. -/
theorem builder_volumes_pos :
    (∀ (xr yr : ℝ × ℝ) (size : Nat × Nat), xr.1 < xr.2 → yr.1 < yr.2 →
      2 ≤ size.1 → 2 ≤ size.2 →
      ∃ g, make_cartesian_grid xr yr size = Except.ok g ∧
        ∀ c < num_cell g, 0 < cell_volume g c) ∧
    (∀ (a : ℝ) (mur nur : ℝ × ℝ) (size : Nat × Nat), 0 < a → 0 ≤ mur.1 →
      mur.1 < mur.2 → 0 < nur.1 → nur.1 < nur.2 → nur.2 < Real.pi / 2 →
      2 ≤ size.1 → 2 ≤ size.2 →
      ∃ g, make_elliptic_grid a mur nur size = Except.ok g ∧
        ∀ c < num_cell g, 0 < cell_volume g c) ∧
    (∀ (l r rho θ : ℝ) (size : Nat × Nat), 0 < l → 0 < r → 0 < rho → 0 < θ →
      θ < Real.pi / 2 → 2 < r * r / (l * rho) →
      forebody_b l r rho / forebody_a l r rho <
        Real.tan θ * Real.tanh (forebody_mu_max l r rho) →
      2 ≤ size.1 → 2 ≤ size.2 →
      ∃ g, make_hyperbolic_forebody_grid l r rho θ size = Except.ok g ∧
        ∀ c < num_cell g, 0 < cell_volume g c) := by
  refine ⟨?_, ?_, ?_⟩
  · intro xr yr size hx hy h1 h2
    exact make_cartesian_grid_volumes_pos xr yr size hx hy h1 h2
  · intro a mur nur size ha hm0 hm hn0 hn hn2 h1 h2
    obtain ⟨g, hg, _, _, _, hp⟩ :=
      make_elliptic_grid_volumes_pos a mur nur size ha hm0 hm hn0 hn hn2 h1 h2
    exact ⟨g, hg, hp⟩
  · intro l r rho θ size hl hr hrho hθ0 hθ1 hbeta hnu h1 h2
    exact make_hyperbolic_forebody_grid_volumes_pos l r rho θ size hl hr hrho hθ0 hθ1
      hbeta hnu h1 h2

theorem except_dot_map_ok {ε α β : Type} (g : α → β) (a : α) :
    (Except.ok a : Except ε α).map g = Except.ok (g a) := rfl

/-- Counterexample to C8 as stated: `make_cartesian_grid((0,1), (0,0), (2,2))`
passes every stated precondition (only the sizes are checked) yet its single
cell has zero volume. -/
theorem make_cartesian_degenerate :
    (make_cartesian_grid ((0 : ℝ), 1) ((0 : ℝ), 0) (2, 2)).map
      (fun g => cell_volume g 0) = Except.ok 0 := by
  rw [make_cartesian_grid_ok ((0 : ℝ), 1) ((0 : ℝ), 0) (2, 2) (by omega) (by omega),
    except_dot_map_ok]
  rw [Except.ok.injEq]
  have h := built_cell_volume
    (fun i j =>
      ((0 : ℝ) + (i : ℝ) * ((1 - 0) / (((2 : Nat) - 1 : Nat) : ℝ)),
       (0 : ℝ) + (j : ℝ) * ((0 - 0) / (((2 : Nat) - 1 : Nat) : ℝ))))
    2 2 0 0 (by omega) (by omega)
  rw [show (0 * (2 - 1) + 0 : Nat) = 0 from rfl] at h
  rw [h]
  unfold cross2d
  dsimp only [Prod.fst, Prod.snd, Prod.mk_sub_mk]
  norm_num

end

end jflow
